import Mathlib

/-! # Gas detection dashboard: monitoring-and-alerting engine

A shallow embedding of `src/pages/safety/GasDetectionDashboard.jsx`, followed by
`calculateProgress` of `DailyChecklist.jsx` and the user list of `UserManagement.jsx`.

* JavaScript numbers are rationals (`ℚ`): every finite double is one. The
  engine is embedded in exact arithmetic (`sample`, `tick`); the thresholds
  `1.0`, `50`, `4.0`, `19.5`, `23.5` and their products with `1.5` are doubles
  and comparisons of doubles agree with comparisons of the rationals they
  denote. Where a property depends on the rounding of an operation, the
  computation is embedded with the roundings of binary64 (`Binary64.toDouble`,
  `sampleBinary64`, `calculateProgress`).
* A property that may be absent from an object (`threshold`, `thresholdLow`,
  `thresholdHigh`) is an `Option ℚ`; `none` stands for `undefined` (and for
  the `NaN` that arithmetic on `undefined` yields).
* `Math.random()`, `Date.now()` and `new Date()` are inputs: an `Env` gives the
  successive values they return during one call of a handler.
* React state (`gasLevels`, `predictions`, `alerts`, `isSimulating`) is the
  record `State`; the calls received by the notification sink (`toast`) are
  recorded in its `toasts` field.
-/

namespace GasDetection

/-! ## Data model -/

/-- One value of the `gasLevels` object (lines 11-15). -/
structure GasEntry where
  value : ℚ
  safe : Bool
  threshold : Option ℚ
  thresholdLow : Option ℚ
  thresholdHigh : Option ℚ
deriving DecidableEq, Repr

/-- The `gasLevels` state object (lines 10-16); the field order is the key order. -/
structure GasLevels where
  methane : GasEntry
  carbonMonoxide : GasEntry
  hydrogen : GasEntry
  oxygenLow : GasEntry
  oxygenHigh : GasEntry
deriving DecidableEq, Repr

/-- The `predictions` state object (lines 17-21). -/
structure Predictions where
  riskLevel : String
  nextHourPrediction : String
  recommendedActions : List String
deriving DecidableEq, Repr

/-- An element of the `alerts` array (lines 59-65 and 154-160). The `timestamp`
is the clock reading of `new Date()` in milliseconds (the source stores its
ISO rendering). -/
structure Alert where
  id : Nat
  type : String
  message : String
  timestamp : Nat
  severity : String
deriving DecidableEq, Repr

/-- A call received by the notification sink: `toast.error(message, ..)` has
kind `"error"`, `toast.info(message, ..)` has kind `"info"`. -/
structure Toast where
  kind : String
  message : String
deriving DecidableEq, Repr

/-- The `user` object of the authentication context, of which only `name` is read. -/
structure User where
  name : String
deriving DecidableEq, Repr

/-- The component state together with the history of sink calls. -/
structure State where
  gasLevels : GasLevels
  predictions : Predictions
  alerts : List Alert
  isSimulating : Bool
  toasts : List Toast
deriving DecidableEq, Repr

/-- The values returned, in call order, by `Math.random()` and by the clock
(`Date.now()`, `new Date()`) during one run of a handler. -/
structure Env where
  random : Nat → ℚ
  now : Nat → Nat

/-! ## JavaScript operators on possibly-undefined numbers -/

/-- JavaScript `a < b` where `b` may be `undefined`: a comparison with `undefined` is `false`. -/
def jsLt (a : ℚ) (b : Option ℚ) : Bool :=
  match b with
  | some t => decide (a < t)
  | none => false

/-- JavaScript `a > b` where `b` may be `undefined` or `NaN`. -/
def jsGt (a : ℚ) (b : Option ℚ) : Bool :=
  match b with
  | some t => decide (a > t)
  | none => false

/-- JavaScript `a || b` on numbers: `undefined` and `0` are falsy. -/
def jsOr (a b : Option ℚ) : Option ℚ :=
  match a with
  | some x => if x = 0 then b else some x
  | none => b

/-- JavaScript `a * k`: `undefined * k` is `NaN`, for which `none` stands. -/
def jsMul (a : Option ℚ) (k : ℚ) : Option ℚ :=
  a.map (fun x => x * k)

/-- Two decimal digits of a natural number below 100. -/
def twoDigits (n : Nat) : String :=
  (if n < 10 then "0" else "") ++ toString n

/-- The builtin `Number.prototype.toFixed(2)` on a rational (below `1e21`):
the sign, then the nearest multiple of `1/100` of the absolute value, ties
taken upwards. -/
def toFixed2 (x : ℚ) : String :=
  let n : Nat := (Int.floor (|x| * 100 + 1 / 2)).toNat
  (if x < 0 then "-" else "") ++ toString (n / 100) ++ "." ++ twoDigits (n % 100)

/-! ## Initial state (lines 10-23) -/

def initialGasLevels : GasLevels where
  methane := { value := 0, safe := true, threshold := some 1.0, thresholdLow := none, thresholdHigh := none }
  carbonMonoxide := { value := 0, safe := true, threshold := some 50, thresholdLow := none, thresholdHigh := none }
  hydrogen := { value := 0, safe := true, threshold := some 4.0, thresholdLow := none, thresholdHigh := none }
  oxygenLow := { value := 21, safe := true, threshold := none, thresholdLow := some 19.5, thresholdHigh := none }
  oxygenHigh := { value := 21, safe := true, threshold := none, thresholdLow := none, thresholdHigh := some 23.5 }

def initialPredictions : Predictions where
  riskLevel := "Low"
  nextHourPrediction := "Stable conditions expected"
  recommendedActions := ["Continue normal operations", "Maintain regular monitoring"]

def initialState : State where
  gasLevels := initialGasLevels
  predictions := initialPredictions
  alerts := []
  isSimulating := false
  toasts := []

/-! ## Helpers of the component -/

/-- The function `Object.entries(gasLevels)`: keys and values in insertion order. -/
def entries (g : GasLevels) : List (String × GasEntry) :=
  [("methane", g.methane), ("carbonMonoxide", g.carbonMonoxide), ("hydrogen", g.hydrogen),
   ("oxygenLow", g.oxygenLow), ("oxygenHigh", g.oxygenHigh)]

/-- The function `Object.values(gasLevels)`. -/
def values (g : GasLevels) : List GasEntry :=
  [g.methane, g.carbonMonoxide, g.hydrogen, g.oxygenLow, g.oxygenHigh]

/-- The function `formatGasName` (lines 94-103). -/
def formatGasName (gasType : String) : String :=
  if gasType = "methane" then "Methane (CH₄)"
  else if gasType = "carbonMonoxide" then "Carbon Monoxide (CO)"
  else if gasType = "hydrogen" then "Hydrogen (H₂)"
  else if gasType = "oxygenLow" then "Oxygen (O₂)"
  else if gasType = "oxygenHigh" then "Oxygen (O₂)"
  else gasType

/-- The local `unsafeCount` of `updatePredictions` (line 108):
`Object.values(gasLevels).filter(gas => !gas.safe).length`. -/
def unsafeCount (g : GasLevels) : Nat :=
  ((values g).filter (fun gas => !gas.safe)).length

/-- The function `updatePredictions` (lines 106-139): the object it passes to `setPredictions`. -/
def updatePredictions (g : GasLevels) : Predictions :=
  let unsafeCount := unsafeCount g
  if unsafeCount = 1 then
    { riskLevel := "Medium"
      nextHourPrediction := "Potential for worsening conditions in the next hour"
      recommendedActions :=
        ["Increase ventilation in affected areas",
         "Monitor gas levels more frequently",
         "Prepare for possible evacuation if levels continue to rise"] }
  else if unsafeCount ≥ 2 then
    { riskLevel := "High"
      nextHourPrediction := "High probability of dangerous conditions developing"
      recommendedActions :=
        ["Begin evacuation procedures immediately",
         "Activate emergency response team",
         "Shut down non-essential operations",
         "Identify source of gas leaks"] }
  else
    { riskLevel := "Low"
      nextHourPrediction := "Stable conditions expected"
      recommendedActions := ["Continue normal operations", "Maintain regular monitoring"] }

/-- The state updater `prev => [newAlert, ...prev].slice(0, 10)` (lines 66 and 161). -/
def alertUpdater (newAlert : Alert) (prev : List Alert) : List Alert :=
  (newAlert :: prev).take 10

/-! ## The tick (interval callback, lines 29-87) -/

/-- Lines 31-54: the simulated fluctuation and the re-evaluation of the `safe`
flags. `Math.random()` is called four times, giving `env.random 0 .. 3`. -/
def sample (g : GasLevels) (env : Env) : GasLevels :=
  let methaneDelta := (env.random 0 - 0.5) * 0.3
  let methaneValue := max 0 (g.methane.value + methaneDelta)
  let coDelta := (env.random 1 - 0.5) * 5
  let coValue := max 0 (g.carbonMonoxide.value + coDelta)
  let h2Delta := (env.random 2 - 0.5) * 0.2
  let h2Value := max 0 (g.hydrogen.value + h2Delta)
  let o2Delta := (env.random 3 - 0.5) * 0.3
  let newO2Value := max 15 (min 25 (g.oxygenLow.value + o2Delta))
  { methane := { g.methane with
      value := methaneValue, safe := jsLt methaneValue g.methane.threshold }
    carbonMonoxide := { g.carbonMonoxide with
      value := coValue, safe := jsLt coValue g.carbonMonoxide.threshold }
    hydrogen := { g.hydrogen with
      value := h2Value, safe := jsLt h2Value g.hydrogen.threshold }
    oxygenLow := { g.oxygenLow with
      value := newO2Value, safe := jsGt newO2Value g.oxygenLow.thresholdLow }
    oxygenHigh := { g.oxygenHigh with
      value := newO2Value, safe := jsLt newO2Value g.oxygenHigh.thresholdHigh } }

/-- The expression `data.threshold || data.thresholdHigh || data.thresholdLow` (line 64). -/
def alertLimit (data : GasEntry) : Option ℚ :=
  jsOr (jsOr data.threshold data.thresholdHigh) data.thresholdLow

/-- The `severity` expression of line 64. -/
def alertSeverity (data : GasEntry) : String :=
  if jsGt data.value (jsMul (alertLimit data) 1.5) then "high" else "medium"

/-- The object literal `newAlert` of lines 59-65, given the two clock readings. -/
def newTickAlert (gasType : String) (data : GasEntry) (idNow dateNow : Nat) : Alert where
  id := idNow
  type := gasType
  message := formatGasName gasType ++ " levels are " ++ toFixed2 data.value ++ " - exceeding safe limits!"
  timestamp := dateNow
  severity := alertSeverity data

/-- What the `forEach` of lines 57-80 has done so far: how many times
`Math.random()` and the clock were read, the alerts handed to `setAlerts`
(React queues the updaters and applies them in call order) and the calls made
to `toast.error`. -/
structure Effects where
  randomCalls : Nat
  clockCalls : Nat
  queued : List Alert
  toasts : List Toast
deriving DecidableEq, Repr

/-- The callback of the `forEach` (lines 57-80). `!data.safe && Math.random() > 0.7`
short-circuits: a safe entry draws no random number. -/
def alertCallback (env : Env) (acc : Effects) (entry : String × GasEntry) : Effects :=
  if entry.2.safe then acc
  else if env.random acc.randomCalls > 0.7 then
    let newAlert := newTickAlert entry.1 entry.2 (env.now acc.clockCalls) (env.now (acc.clockCalls + 1))
    { randomCalls := acc.randomCalls + 1
      clockCalls := acc.clockCalls + 2
      queued := acc.queued ++ [newAlert]
      toasts := if newAlert.severity = "high"
                then acc.toasts ++ [{ kind := "error", message := newAlert.message }]
                else acc.toasts }
  else { acc with randomCalls := acc.randomCalls + 1 }

/-- The effects of the whole `forEach` over `Object.entries(newGasLevels)`;
four random numbers were drawn before it starts. -/
def tickEffects (newGasLevels : GasLevels) (env : Env) : Effects :=
  (entries newGasLevels).foldl (alertCallback env)
    { randomCalls := 4, clockCalls := 0, queued := [], toasts := [] }

/-- One run of the interval callback (lines 29-87). -/
def tick (s : State) (env : Env) : State :=
  let newGasLevels := sample s.gasLevels env
  let eff := tickEffects newGasLevels env
  { gasLevels := newGasLevels
    predictions := updatePredictions newGasLevels
    alerts := eff.queued.foldl (fun prev newAlert => alertUpdater newAlert prev) s.alerts
    isSimulating := s.isSimulating
    toasts := s.toasts ++ eff.toasts }

/-! ## Operator actions -/

/-- The function `handleEmergencyAlert` (lines 142-165). -/
def handleEmergencyAlert (s : State) (user : User) (env : Env) : State :=
  let newAlert : Alert :=
    { id := env.now 0
      type := "emergency"
      message := "Emergency alert triggered by " ++ user.name
      timestamp := env.now 1
      severity := "high" }
  { s with
    toasts := s.toasts ++ [{ kind := "error", message := "🚨 EMERGENCY ALERT SENT TO ALL PERSONNEL!" }]
    alerts := alertUpdater newAlert s.alerts }

/-- The function `toggleSimulation` (lines 168-176). -/
def toggleSimulation (s : State) : State :=
  { s with
    isSimulating := !s.isSimulating
    toasts := if !s.isSimulating
              then s.toasts ++ [{ kind := "info", message := "Gas level simulation started" }]
              else s.toasts }

/-! ## Runs of the component -/

/-- Every `Math.random()` result lies in `[0, 1)`. -/
def Env.RandomInRange (env : Env) : Prop :=
  ∀ k, 0 ≤ env.random k ∧ env.random k < 1

/-- The states the component can be in: the initial one, and those obtained by
a tick (the interval exists only while `isSimulating`), by the emergency
button or by the simulation toggle. -/
inductive Reachable : State → Prop
  | init : Reachable initialState
  | tick {s : State} (env : Env) :
      Reachable s → s.isSimulating = true → env.RandomInRange → Reachable (tick s env)
  | emergency {s : State} (user : User) (env : Env) :
      Reachable s → Reachable (handleEmergencyAlert s user env)
  | toggle {s : State} : Reachable s → Reachable (toggleSimulation s)

/-- The three threshold properties of two entries agree. -/
def sameConfig (a b : GasEntry) : Prop :=
  a.threshold = b.threshold ∧ a.thresholdLow = b.thresholdLow ∧ a.thresholdHigh = b.thresholdHigh

/-- The threshold properties are those of the initial state: `threshold` is
`1.0`, `50`, `4.0` on methane, carbonMonoxide, hydrogen, `thresholdLow` is
`19.5` on oxygenLow, `thresholdHigh` is `23.5` on oxygenHigh, and no entry has
another threshold property. -/
def Configured (g : GasLevels) : Prop :=
  sameConfig g.methane initialGasLevels.methane ∧
  sameConfig g.carbonMonoxide initialGasLevels.carbonMonoxide ∧
  sameConfig g.hydrogen initialGasLevels.hydrogen ∧
  sameConfig g.oxygenLow initialGasLevels.oxygenLow ∧
  sameConfig g.oxygenHigh initialGasLevels.oxygenHigh

/-- Following the spec's words (section 4.3): the number of distinct physical
channels that are unsafe, oxygen being unsafe when either of its two verdicts is. -/
def physicalUnsafeCount (g : GasLevels) : Nat :=
  (if g.methane.safe then 0 else 1) + (if g.carbonMonoxide.safe then 0 else 1) +
  (if g.hydrogen.safe then 0 else 1) +
  (if g.oxygenLow.safe && g.oxygenHigh.safe then 0 else 1)

/-- A verdict set in which both oxygen verdicts are unsafe and every other one is safe. -/
def bothOxygenUnsafe : GasLevels :=
  { initialGasLevels with
    oxygenLow := { initialGasLevels.oxygenLow with safe := false }
    oxygenHigh := { initialGasLevels.oxygenHigh with safe := false } }

/-- A verdict set in which methane and the lower oxygen bound are unsafe. -/
def methaneAndOxygenLowUnsafe : GasLevels :=
  { initialGasLevels with
    methane := { initialGasLevels.methane with safe := false }
    oxygenLow := { initialGasLevels.oxygenLow with safe := false } }

/-- Every `Math.random()` call returns `0.5` (all deltas are zero, no alert
fires); the clock reads `1000, 1001, ..`. -/
def midEnv : Env where
  random := fun _ => 0.5
  now := fun k => 1000 + k

/-- A state whose readings sit exactly on the limits: methane `1.0`,
carbonMonoxide `50`, hydrogen `4.0`. -/
def onThresholdState : State :=
  { initialState with
    gasLevels := { initialGasLevels with
      methane := { initialGasLevels.methane with value := 1.0 }
      carbonMonoxide := { initialGasLevels.carbonMonoxide with value := 50 }
      hydrogen := { initialGasLevels.hydrogen with value := 4.0 } }
    isSimulating := true }

/-- A state whose oxygen reading sits exactly on the lower bound `19.5`. -/
def oxygenOnLowBoundState : State :=
  { initialState with
    gasLevels := { initialGasLevels with
      oxygenLow := { initialGasLevels.oxygenLow with value := 19.5 }
      oxygenHigh := { initialGasLevels.oxygenHigh with value := 19.5 } }
    isSimulating := true }

/-- The four sampling draws are `0.5` (all deltas are zero) and every later
draw is `0.9`; the clock reads `1000, 1001, ..`. -/
def firingEnv : Env where
  random := fun k => if k < 4 then 0.5 else 0.9
  now := fun k => 1000 + k

/-- A running state with methane at `1.6` (above `1.5 × 1.0`) and
carbonMonoxide at `60` (above `50`, not above `75`). -/
def overLimitState : State :=
  { initialState with
    gasLevels := { initialGasLevels with
      methane := { initialGasLevels.methane with value := 1.6, safe := false }
      carbonMonoxide := { initialGasLevels.carbonMonoxide with value := 60, safe := false } }
    isSimulating := true }

/-- The number of `Math.random()` calls the `forEach` callback makes for an
entry: one when the entry is unsafe, none when it is safe. -/
def drawsOf (data : GasEntry) : Nat :=
  if data.safe then 0 else 1

/-- Walking the entries `l` in order from the `k`-th random draw on, some
unsafe entry of key `n` meets a draw above `0.7`. -/
def firesFor (env : Env) (n : String) : Nat → List (String × GasEntry) → Prop
  | _, [] => False
  | k, e :: l =>
    if e.2.safe then firesFor env n k l
    else (e.1 = n ∧ env.random k > 0.7) ∨ firesFor env n (k + 1) l

/-- The `safe` flags of a verdict set, in key order. -/
def safeFlags (g : GasLevels) : List Bool :=
  (values g).map (fun gas => gas.safe)

/-- Following the spec's words (section 8, scenarios): the number of physical
channels whose value violates its limit, the limits being `1.0`, `50`, `4.0`
and the oxygen range `(19.5, 23.5)`. -/
def violations (g : GasLevels) : Nat :=
  (if g.methane.value < 1.0 then 0 else 1) +
  (if g.carbonMonoxide.value < 50 then 0 else 1) +
  (if g.hydrogen.value < 4.0 then 0 else 1) +
  (if 19.5 < g.oxygenLow.value ∧ g.oxygenLow.value < 23.5 then 0 else 1)

/-- A running state in which only methane, at `1.2`, is above its limit. -/
def methaneOnlyState : State :=
  { initialState with
    gasLevels := { initialGasLevels with
      methane := { initialGasLevels.methane with value := 1.2 } }
    isSimulating := true }

/-- A state with the same `safe` flags as the initial one, other readings,
another prediction, a non-empty alert log and the simulation running. -/
def otherHistoryState : State where
  gasLevels := { initialGasLevels with
    methane := { initialGasLevels.methane with value := 0.4 }
    carbonMonoxide := { initialGasLevels.carbonMonoxide with value := 12 } }
  predictions := updatePredictions bothOxygenUnsafe
  alerts := [{ id := 7, type := "emergency", message := "Emergency alert triggered by Alice"
               timestamp := 7, severity := "high" }]
  isSimulating := true
  toasts := []

/-- The local `methaneDelta` of line 34. -/
def methaneDelta (env : Env) : ℚ := (env.random 0 - 0.5) * 0.3

/-- The local `coDelta` of line 39. -/
def coDelta (env : Env) : ℚ := (env.random 1 - 0.5) * 5

/-- The local `h2Delta` of line 44. -/
def h2Delta (env : Env) : ℚ := (env.random 2 - 0.5) * 0.2

/-- The local `o2Delta` of line 49. -/
def o2Delta (env : Env) : ℚ := (env.random 3 - 0.5) * 0.3

/-- The clamp `Math.max(0, x)` of lines 35, 40 and 45. -/
def clampLower (x : ℚ) : ℚ := max 0 x

/-- The clamp `Math.max(15, Math.min(25, x))` of line 50. -/
def clampOxygen (x : ℚ) : ℚ := max 15 (min 25 x)

/-- Every `Math.random()` call returns `0` (the largest downward deltas). -/
def lowEnv : Env where
  random := fun _ => 0
  now := fun k => 1000 + k

/-- What can happen to the component: the interval fires (with the values
`Math.random()` and the clock return during the callback), the emergency
button is pressed, or the simulation button is pressed. -/
inductive Action where
  | tick (env : Env)
  | emergency (user : User) (env : Env)
  | toggle

/-- The effect (lines 26-91) creates the interval only `if (isSimulating)` and
its cleanup clears it, so the interval fires only while `isSimulating`; the
two buttons are always rendered. -/
def Action.enabled (s : State) : Action → Prop
  | Action.tick env => s.isSimulating = true ∧ env.RandomInRange
  | Action.emergency _ _ => True
  | Action.toggle => True

/-- The state after an action. -/
def Action.apply (s : State) : Action → State
  | Action.tick env => GasDetection.tick s env
  | Action.emergency user env => handleEmergencyAlert s user env
  | Action.toggle => toggleSimulation s

/-- The state after a sequence of actions. -/
def run (s : State) (as : List Action) : State :=
  as.foldl Action.apply s

/-- The actions `as` are enabled one after the other from `s`, and
`isSimulating` is false in `s` and after each of them. -/
def StaysStopped (s : State) : List Action → Prop
  | [] => s.isSimulating = false
  | a :: as => s.isSimulating = false ∧ Action.enabled s a ∧ StaysStopped (Action.apply s a) as

/-- The label of the simulation button (line 191). -/
def controlLabel (s : State) : String :=
  if s.isSimulating then "Stop Simulation" else "Start Simulation"

/-- The five threshold properties of the initial state, read from a `gasLevels` object. -/
def thresholdFields (g : GasLevels) : List (Option ℚ) :=
  [g.methane.threshold, g.carbonMonoxide.threshold, g.hydrogen.threshold,
   g.oxygenLow.thresholdLow, g.oxygenHigh.thresholdHigh]

/-- The initial state with the simulation running. -/
def runningState : State :=
  { initialState with isSimulating := true }

/-- Draws that let methane rise by `0.06` and oxygen fall by `0.15` in each
tick, leave the other channels where they are and fire no alert (no draw
exceeds `0.7`); the clock reads `1000`. -/
def climbEnv : Env where
  random := fun k => if k = 0 then 0.7 else if k = 3 then 0 else 0.5
  now := fun _ => 1000

/-- All deltas are zero and every alert draw is `0.9`; the whole callback runs
within one millisecond, so every clock reading is `1000`. -/
def sameMsEnv : Env where
  random := fun k => if k < 4 then 0.5 else 0.9
  now := fun _ => 1000

/-- The state after starting the simulation and `n` ticks with `climbEnv`. -/
def climb : Nat → State
  | 0 => toggleSimulation initialState
  | n + 1 => tick (climb n) climbEnv

/-- The state after starting the simulation, 17 ticks with `climbEnv`
(methane reaches `1.02`, oxygen `18.45`) and one tick with `sameMsEnv`. -/
def duplicateIdState : State :=
  tick (climb 17) sameMsEnv

/-- The order of the risk levels: Low below Medium below High. -/
def riskRank (riskLevel : String) : Nat :=
  if riskLevel = "High" then 2 else if riskLevel = "Medium" then 1 else 0

/-- A verdict set in which only hydrogen is unsafe. -/
def hydrogenUnsafe : GasLevels :=
  { initialGasLevels with hydrogen := { initialGasLevels.hydrogen with safe := false } }

/-- A verdict set in which hydrogen and carbonMonoxide are unsafe. -/
def hydrogenAndCoUnsafe : GasLevels :=
  { initialGasLevels with
    hydrogen := { initialGasLevels.hydrogen with safe := false }
    carbonMonoxide := { initialGasLevels.carbonMonoxide with safe := false } }

/-! ## The phases of a tick -/

/-- Sampling and threshold evaluation (lines 31-54, stored by line 83). -/
def samplePhase (s : State) (env : Env) : State :=
  { s with gasLevels := sample s.gasLevels env }

/-- Alert creation from the current verdicts (lines 56-80): the queued
updaters are applied to the log and the sink receives the calls. -/
def alertPhase (s : State) (env : Env) : State :=
  let eff := tickEffects s.gasLevels env
  { s with
    alerts := eff.queued.foldl (fun prev newAlert => alertUpdater newAlert prev) s.alerts
    toasts := s.toasts ++ eff.toasts }

/-- Risk aggregation from the current verdicts (line 86). -/
def aggregatePhase (s : State) : State :=
  { s with predictions := updatePredictions s.gasLevels }

/-- The order of the source: sample, evaluate, alert, aggregate. -/
def tickCodeOrder (s : State) (env : Env) : State :=
  aggregatePhase (alertPhase (samplePhase s env) env)

/-- Following the spec's words (section 5, section 4.5): the tick runs
sample, evaluate, aggregate, alert. -/
def tickSpecOrder (s : State) (env : Env) : State :=
  alertPhase (aggregatePhase (samplePhase s env)) env

end GasDetection

/-! # Arithmetic of JavaScript numbers

A JavaScript number is an IEEE 754 binary64 value. Every arithmetic operation
returns the double nearest to the exact result, ties going to the even
significand, and a decimal literal denotes the double nearest to it. The
values of this development are far from the overflow and underflow
thresholds, so the exponent range is left unbounded. -/

namespace Binary64

/-- The integer nearest to a rational, ties going to the even one. -/
def roundHalfEven (t : ℚ) : ℤ :=
  if t - Int.floor t < 1 / 2 then Int.floor t
  else if 1 / 2 < t - Int.floor t then Int.floor t + 1
  else if Int.floor t % 2 = 0 then Int.floor t else Int.floor t + 1

/-- Rounding of a positive rational to 53 significant bits: with
`2 ^ e ≤ x < 2 ^ (e + 1)` the doubles around `x` are the multiples of
`2 ^ (e - 52)`. -/
def roundPos (x : ℚ) : ℚ :=
  roundHalfEven (x / (2 : ℚ) ^ (Int.log 2 x - 52)) * (2 : ℚ) ^ (Int.log 2 x - 52)

/-- The double nearest to a rational (round to nearest, ties to even). -/
def toDouble (x : ℚ) : ℚ :=
  if 0 < x then roundPos x else if x < 0 then -roundPos (-x) else 0

end Binary64

namespace GasDetection

/-! ## The sampling step in binary64 -/

/-- The local `methaneDelta` of line 34 as the program computes it: the
subtraction and the product are rounded and `0.3` is the nearest double. -/
def methaneDeltaBinary64 (env : Env) : ℚ :=
  Binary64.toDouble (Binary64.toDouble (env.random 0 - 0.5) * Binary64.toDouble 0.3)

/-- The local `coDelta` of line 39 as the program computes it. -/
def coDeltaBinary64 (env : Env) : ℚ :=
  Binary64.toDouble (Binary64.toDouble (env.random 1 - 0.5) * 5)

/-- The local `h2Delta` of line 44 as the program computes it. -/
def h2DeltaBinary64 (env : Env) : ℚ :=
  Binary64.toDouble (Binary64.toDouble (env.random 2 - 0.5) * Binary64.toDouble 0.2)

/-- The local `o2Delta` of line 49 as the program computes it. -/
def o2DeltaBinary64 (env : Env) : ℚ :=
  Binary64.toDouble (Binary64.toDouble (env.random 3 - 0.5) * Binary64.toDouble 0.3)

/-- Lines 31-54 as the program computes them, in binary64: each subtraction,
product and sum is rounded to the nearest double; `Math.max`, `Math.min` and
the comparisons are exact. `sample` is the same computation without the
roundings. -/
def sampleBinary64 (g : GasLevels) (env : Env) : GasLevels :=
  let methaneValue := max 0 (Binary64.toDouble (g.methane.value + methaneDeltaBinary64 env))
  let coValue := max 0 (Binary64.toDouble (g.carbonMonoxide.value + coDeltaBinary64 env))
  let h2Value := max 0 (Binary64.toDouble (g.hydrogen.value + h2DeltaBinary64 env))
  let newO2Value :=
    max 15 (min 25 (Binary64.toDouble (g.oxygenLow.value + o2DeltaBinary64 env)))
  { methane := { g.methane with
      value := methaneValue, safe := jsLt methaneValue g.methane.threshold }
    carbonMonoxide := { g.carbonMonoxide with
      value := coValue, safe := jsLt coValue g.carbonMonoxide.threshold }
    hydrogen := { g.hydrogen with
      value := h2Value, safe := jsLt h2Value g.hydrogen.threshold }
    oxygenLow := { g.oxygenLow with
      value := newO2Value, safe := jsGt newO2Value g.oxygenLow.thresholdLow }
    oxygenHigh := { g.oxygenHigh with
      value := newO2Value, safe := jsLt newO2Value g.oxygenHigh.thresholdHigh } }

end GasDetection

/-! # Daily checklist: `src/pages/checklist/DailyChecklist.jsx` -/

namespace DailyChecklist

/-- An element of `checklist.items`, of which `calculateProgress` reads `completed`. -/
structure ChecklistItem where
  id : String
  completed : Bool
deriving DecidableEq, Repr

/-- The builtin `Math.round`: the nearest integer, ties taken upwards. -/
def jsRound (x : ℚ) : ℤ :=
  Int.floor (x + 1 / 2)

/-- The function `calculateProgress` (lines 215-219), on `checklist.items`.
The two lengths are integers, hence exact; the quotient and the product by
`100` are rounded to doubles; `Math.round` is exact. -/
def calculateProgress (items : List ChecklistItem) : ℤ :=
  if items.length = 0 then 0
  else
    let completedItems := (items.filter (fun item => item.completed)).length
    jsRound (Binary64.toDouble
      (Binary64.toDouble ((completedItems : ℚ) / (items.length : ℚ)) * 100))

/-- A checklist of 40 items of which the first 23 are completed. -/
def partlyDone : List ChecklistItem :=
  List.replicate 23 { id := "done", completed := true } ++
    List.replicate 17 { id := "open", completed := false }

/-- A checklist of 200 items of which the first 199 are completed. -/
def almostDone : List ChecklistItem :=
  List.replicate 199 { id := "done", completed := true } ++ [{ id := "open", completed := false }]

end DailyChecklist

/-! # User management: `src/pages/admin/UserManagement.jsx` -/

namespace UserManagement

/-- An element of the `users` array (lines 45-56); `avatar` is absent from added users. -/
structure UserRecord where
  id : Nat
  name : String
  email : String
  role : String
  status : String
  lastLogin : String
  department : String
  phone : String
  avatar : Option String
deriving DecidableEq, Repr

/-- The `formData` state object (lines 34-41). -/
structure FormData where
  name : String
  email : String
  role : String
  status : String
  department : String
  phone : String
deriving DecidableEq, Repr

/-- The array `mockUsers` (lines 45-56). -/
def mockUsers : List UserRecord :=
  [{ id := 1, name := "John Doe", email := "john@example.com", role := "worker", status := "active", lastLogin := "2023-10-15", department := "Mining", phone := "555-1234", avatar := some "https://randomuser.me/api/portraits/men/1.jpg" },
   { id := 2, name := "Jane Smith", email := "jane@example.com", role := "supervisor", status := "active", lastLogin := "2023-10-14", department := "Safety", phone := "555-2345", avatar := some "https://randomuser.me/api/portraits/women/2.jpg" },
   { id := 3, name := "Mike Johnson", email := "mike@example.com", role := "admin", status := "active", lastLogin := "2023-10-13", department := "IT", phone := "555-3456", avatar := some "https://randomuser.me/api/portraits/men/3.jpg" },
   { id := 4, name := "Sarah Williams", email := "sarah@example.com", role := "worker", status := "inactive", lastLogin := "2023-09-20", department := "Mining", phone := "555-4567", avatar := some "https://randomuser.me/api/portraits/women/4.jpg" },
   { id := 5, name := "Robert Brown", email := "robert@example.com", role := "dgms_officer", status := "active", lastLogin := "2023-10-12", department := "Regulatory", phone := "555-5678", avatar := some "https://randomuser.me/api/portraits/men/5.jpg" },
   { id := 6, name := "Emily Davis", email := "emily@example.com", role := "worker", status := "active", lastLogin := "2023-10-11", department := "Mining", phone := "555-6789", avatar := some "https://randomuser.me/api/portraits/women/6.jpg" },
   { id := 7, name := "David Wilson", email := "david@example.com", role := "supervisor", status := "active", lastLogin := "2023-10-10", department := "Maintenance", phone := "555-7890", avatar := some "https://randomuser.me/api/portraits/men/7.jpg" },
   { id := 8, name := "Lisa Taylor", email := "lisa@example.com", role := "worker", status := "inactive", lastLogin := "2023-09-15", department := "Safety", phone := "555-8901", avatar := some "https://randomuser.me/api/portraits/women/8.jpg" },
   { id := 9, name := "James Anderson", email := "james@example.com", role := "admin", status := "active", lastLogin := "2023-10-09", department := "IT", phone := "555-9012", avatar := some "https://randomuser.me/api/portraits/men/9.jpg" },
   { id := 10, name := "Patricia Martin", email := "patricia@example.com", role := "dgms_officer", status := "active", lastLogin := "2023-10-08", department := "Regulatory", phone := "555-0123", avatar := some "https://randomuser.me/api/portraits/women/10.jpg" }]

/-- The function `handleSubmit` (lines 138-161): the array it passes to
`setUsers`. With a selected user the form fields overwrite that user's; with
none a new user with `id: users.length + 1` is appended. -/
def handleSubmit (users : List UserRecord) (selectedUser : Option UserRecord)
    (formData : FormData) : List UserRecord :=
  match selectedUser with
  | some selected =>
    users.map (fun user =>
      if user.id = selected.id then
        { user with
          name := formData.name, email := formData.email, role := formData.role
          status := formData.status, department := formData.department, phone := formData.phone }
      else user)
  | none =>
    users ++ [{ id := users.length + 1
                name := formData.name, email := formData.email, role := formData.role
                status := formData.status, department := formData.department
                phone := formData.phone
                lastLogin := "Never", avatar := none }]

/-- The function `handleDeleteUser` (lines 163-170); `confirmed` is the answer
of `window.confirm`. -/
def handleDeleteUser (users : List UserRecord) (userId : Nat) (confirmed : Bool) :
    List UserRecord :=
  if confirmed then users.filter (fun user => user.id ≠ userId) else users

/-- The form as `handleAddUser` resets it (lines 103-110), with a name typed in. -/
def newUserForm : FormData where
  name := "New User"
  email := ""
  role := "worker"
  status := "active"
  department := ""
  phone := ""

end UserManagement

namespace GasDetection

/-! ## Basic facts -/

theorem configured_initial : Configured initialGasLevels :=
  ⟨⟨rfl, rfl, rfl⟩, ⟨rfl, rfl, rfl⟩, ⟨rfl, rfl, rfl⟩, ⟨rfl, rfl, rfl⟩, ⟨rfl, rfl, rfl⟩⟩

theorem configured_sample {g : GasLevels} (env : Env) (h : Configured g) :
    Configured (sample g env) := h

theorem tick_gasLevels (s : State) (env : Env) :
    (tick s env).gasLevels = sample s.gasLevels env := rfl

theorem unsafeCount_eq (g : GasLevels) :
    unsafeCount g =
      (if g.methane.safe then 0 else 1) + (if g.carbonMonoxide.safe then 0 else 1) +
      (if g.hydrogen.safe then 0 else 1) + (if g.oxygenLow.safe then 0 else 1) +
      (if g.oxygenHigh.safe then 0 else 1) := by
  unfold unsafeCount values
  simp only [List.filter_cons, List.filter_nil]
  cases g.methane.safe <;> cases g.carbonMonoxide.safe <;> cases g.hydrogen.safe <;>
    cases g.oxygenLow.safe <;> cases g.oxygenHigh.safe <;> rfl

/-! ## Risk aggregation -/

/-- C1: `updatePredictions` maps the number of unsafe verdicts to the
prediction: count 0 gives Low with its forecast and two actions, count 1 gives
Medium with its forecast and three actions, count at least 2 gives High with
its forecast and four actions, each list in the stated order. -/
theorem updatePredictions_by_unsafeCount (g : GasLevels) :
    (unsafeCount g = 0 → updatePredictions g =
      { riskLevel := "Low"
        nextHourPrediction := "Stable conditions expected"
        recommendedActions := ["Continue normal operations", "Maintain regular monitoring"] }) ∧
    (unsafeCount g = 1 → updatePredictions g =
      { riskLevel := "Medium"
        nextHourPrediction := "Potential for worsening conditions in the next hour"
        recommendedActions :=
          ["Increase ventilation in affected areas",
           "Monitor gas levels more frequently",
           "Prepare for possible evacuation if levels continue to rise"] }) ∧
    (2 ≤ unsafeCount g → updatePredictions g =
      { riskLevel := "High"
        nextHourPrediction := "High probability of dangerous conditions developing"
        recommendedActions :=
          ["Begin evacuation procedures immediately",
           "Activate emergency response team",
           "Shut down non-essential operations",
           "Identify source of gas leaks"] }) := by
  refine ⟨fun h => ?_, fun h => ?_, fun h => ?_⟩
  · simp [updatePredictions, h]
  · simp [updatePredictions, h]
  · have h1 : unsafeCount g ≠ 1 := by omega
    simp [updatePredictions, h, h1]

/-- C2, as stated, fails: when both oxygen verdicts are unsafe and nothing
else is, `updatePredictions` counts 2 unsafe entries (and reports High) while
one physical channel is unsafe. -/
theorem unsafeCount_counts_both_oxygen_verdicts :
    unsafeCount bothOxygenUnsafe = 2 ∧ physicalUnsafeCount bothOxygenUnsafe = 1 ∧
    (updatePredictions bothOxygenUnsafe).riskLevel = "High" := by
  refine ⟨by decide, by decide, by decide⟩

/-- C2, amended: for every verdict set in which at most one of the two oxygen
verdicts is unsafe, the count used by `updatePredictions` is the number of
unsafe physical channels, oxygen counted once. -/
theorem unsafeCount_eq_physicalUnsafeCount (g : GasLevels)
    (h : g.oxygenLow.safe = true ∨ g.oxygenHigh.safe = true) :
    unsafeCount g = physicalUnsafeCount g := by
  rw [unsafeCount_eq]
  unfold physicalUnsafeCount
  rcases h with h | h <;> rw [h] <;>
    cases g.methane.safe <;> cases g.carbonMonoxide.safe <;> cases g.hydrogen.safe <;>
    cases g.oxygenLow.safe <;> cases g.oxygenHigh.safe <;> simp

theorem unsafeCount_eq_physicalUnsafeCount_witness :
    (methaneAndOxygenLowUnsafe.oxygenLow.safe = true ∨
      methaneAndOxygenLowUnsafe.oxygenHigh.safe = true) ∧
    unsafeCount methaneAndOxygenLowUnsafe = 2 ∧
    unsafeCount methaneAndOxygenLowUnsafe = physicalUnsafeCount methaneAndOxygenLowUnsafe :=
  ⟨Or.inr rfl, by decide,
    unsafeCount_eq_physicalUnsafeCount methaneAndOxygenLowUnsafe (Or.inr rfl)⟩

/-! ## Threshold evaluation -/

theorem sample_methane_safe (g : GasLevels) (env : Env) :
    (sample g env).methane.safe = jsLt (sample g env).methane.value g.methane.threshold := rfl

theorem sample_carbonMonoxide_safe (g : GasLevels) (env : Env) :
    (sample g env).carbonMonoxide.safe =
      jsLt (sample g env).carbonMonoxide.value g.carbonMonoxide.threshold := rfl

theorem sample_hydrogen_safe (g : GasLevels) (env : Env) :
    (sample g env).hydrogen.safe = jsLt (sample g env).hydrogen.value g.hydrogen.threshold := rfl

theorem sample_oxygenLow_safe (g : GasLevels) (env : Env) :
    (sample g env).oxygenLow.safe =
      jsGt (sample g env).oxygenLow.value g.oxygenLow.thresholdLow := rfl

theorem sample_oxygenHigh_safe (g : GasLevels) (env : Env) :
    (sample g env).oxygenHigh.safe =
      jsLt (sample g env).oxygenHigh.value g.oxygenHigh.thresholdHigh := rfl

theorem sample_oxygen_value (g : GasLevels) (env : Env) :
    (sample g env).oxygenHigh.value = (sample g env).oxygenLow.value := rfl

/-- The two oxygen verdicts written by the sampling step are never both
unsafe: they test one value against `19.5` and `23.5`. -/
theorem sample_oxygen_some_safe (g : GasLevels) (env : Env) (h : Configured g) :
    (sample g env).oxygenLow.safe = true ∨ (sample g env).oxygenHigh.safe = true := by
  obtain ⟨-, -, -, ⟨-, hl, -⟩, ⟨-, -, hh⟩⟩ := h
  have hl1 : g.oxygenLow.thresholdLow = some 19.5 := hl
  have hh1 : g.oxygenHigh.thresholdHigh = some 23.5 := hh
  rw [sample_oxygenLow_safe, sample_oxygenHigh_safe, sample_oxygen_value, hl1, hh1]
  simp only [jsGt, jsLt, decide_eq_true_eq]
  rcases lt_or_le (19.5 : ℚ) (sample g env).oxygenLow.value with h1 | h1
  · exact Or.inl h1
  · exact Or.inr (lt_of_le_of_lt h1 (by norm_num))

/-- C3: after a tick, each single-threshold channel is marked safe exactly
when its new value is strictly below its threshold (methane 1.0,
carbonMonoxide 50, hydrogen 4.0); a new value equal to the threshold is unsafe. -/
theorem tick_single_threshold_verdict (s : State) (env : Env) (h : Configured s.gasLevels) :
    ((tick s env).gasLevels.methane.safe = decide ((tick s env).gasLevels.methane.value < 1.0)) ∧
    ((tick s env).gasLevels.carbonMonoxide.safe =
      decide ((tick s env).gasLevels.carbonMonoxide.value < 50)) ∧
    ((tick s env).gasLevels.hydrogen.safe = decide ((tick s env).gasLevels.hydrogen.value < 4.0)) ∧
    ((tick s env).gasLevels.methane.value = 1.0 → (tick s env).gasLevels.methane.safe = false) ∧
    ((tick s env).gasLevels.carbonMonoxide.value = 50 →
      (tick s env).gasLevels.carbonMonoxide.safe = false) ∧
    ((tick s env).gasLevels.hydrogen.value = 4.0 → (tick s env).gasLevels.hydrogen.safe = false) := by
  obtain ⟨⟨hm, -, -⟩, ⟨hc, -, -⟩, ⟨hh, -, -⟩, -, -⟩ := h
  have hm1 : s.gasLevels.methane.threshold = some 1.0 := hm
  have hc1 : s.gasLevels.carbonMonoxide.threshold = some 50 := hc
  have hh1 : s.gasLevels.hydrogen.threshold = some 4.0 := hh
  simp only [tick_gasLevels, sample_methane_safe, sample_carbonMonoxide_safe,
    sample_hydrogen_safe, hm1, hc1, hh1, jsLt]
  refine ⟨trivial, trivial, trivial, fun e => ?_, fun e => ?_, fun e => ?_⟩ <;> simp [e]

theorem tick_single_threshold_verdict_witness :
    Configured onThresholdState.gasLevels ∧
    (tick onThresholdState midEnv).gasLevels.methane.value = 1.0 ∧
    (tick onThresholdState midEnv).gasLevels.carbonMonoxide.value = 50 ∧
    (tick onThresholdState midEnv).gasLevels.hydrogen.value = 4.0 ∧
    (tick onThresholdState midEnv).gasLevels.methane.safe = false ∧
    (tick onThresholdState midEnv).gasLevels.carbonMonoxide.safe = false ∧
    (tick onThresholdState midEnv).gasLevels.hydrogen.safe = false := by
  have hc : Configured onThresholdState.gasLevels := configured_initial
  have hv1 : (tick onThresholdState midEnv).gasLevels.methane.value = 1.0 := by
    norm_num [tick, sample, onThresholdState, midEnv]
  have hv2 : (tick onThresholdState midEnv).gasLevels.carbonMonoxide.value = 50 := by
    norm_num [tick, sample, onThresholdState, midEnv]
  have hv3 : (tick onThresholdState midEnv).gasLevels.hydrogen.value = 4.0 := by
    norm_num [tick, sample, onThresholdState, midEnv]
  have h := tick_single_threshold_verdict onThresholdState midEnv hc
  exact ⟨hc, hv1, hv2, hv3, h.2.2.2.1 hv1, h.2.2.2.2.1 hv2, h.2.2.2.2.2 hv3⟩

/-- C4: after a tick, the two oxygen entries hold the same new value `v`,
`oxygenLow.safe` is `v > 19.5` and `oxygenHigh.safe` is `v < 23.5`; `v = 19.5`
makes `oxygenLow` unsafe, `v = 23.5` makes `oxygenHigh` unsafe, and both are
safe exactly when `19.5 < v < 23.5`. -/
theorem tick_oxygen_verdicts (s : State) (env : Env) (h : Configured s.gasLevels) :
    (tick s env).gasLevels.oxygenHigh.value = (tick s env).gasLevels.oxygenLow.value ∧
    ((tick s env).gasLevels.oxygenLow.safe =
      decide ((tick s env).gasLevels.oxygenLow.value > 19.5)) ∧
    ((tick s env).gasLevels.oxygenHigh.safe =
      decide ((tick s env).gasLevels.oxygenLow.value < 23.5)) ∧
    ((tick s env).gasLevels.oxygenLow.value = 19.5 →
      (tick s env).gasLevels.oxygenLow.safe = false) ∧
    ((tick s env).gasLevels.oxygenLow.value = 23.5 →
      (tick s env).gasLevels.oxygenHigh.safe = false) ∧
    (((tick s env).gasLevels.oxygenLow.safe = true ∧
        (tick s env).gasLevels.oxygenHigh.safe = true) ↔
      (19.5 < (tick s env).gasLevels.oxygenLow.value ∧
        (tick s env).gasLevels.oxygenLow.value < 23.5)) := by
  obtain ⟨-, -, -, ⟨-, hl, -⟩, ⟨-, -, hh⟩⟩ := h
  have hl1 : s.gasLevels.oxygenLow.thresholdLow = some 19.5 := hl
  have hh1 : s.gasLevels.oxygenHigh.thresholdHigh = some 23.5 := hh
  simp only [tick_gasLevels, sample_oxygenLow_safe, sample_oxygenHigh_safe, sample_oxygen_value,
    hl1, hh1, jsLt, jsGt]
  refine ⟨trivial, trivial, trivial, fun e => ?_, fun e => ?_, ?_⟩
  · simp [e]
  · simp [e]
  · simp

theorem tick_oxygen_verdicts_witness :
    Configured oxygenOnLowBoundState.gasLevels ∧
    (tick oxygenOnLowBoundState midEnv).gasLevels.oxygenLow.value = 19.5 ∧
    (tick oxygenOnLowBoundState midEnv).gasLevels.oxygenLow.safe = false ∧
    (tick oxygenOnLowBoundState midEnv).gasLevels.oxygenHigh.safe = true := by
  have hc : Configured oxygenOnLowBoundState.gasLevels := configured_initial
  have hv : (tick oxygenOnLowBoundState midEnv).gasLevels.oxygenLow.value = 19.5 := by
    norm_num [tick, sample, oxygenOnLowBoundState, midEnv]
  have h := tick_oxygen_verdicts oxygenOnLowBoundState midEnv hc
  refine ⟨hc, hv, h.2.2.2.1 hv, ?_⟩
  rw [h.2.2.1, hv]
  norm_num

/-! ## Sampling -/

/-- C5: whatever the previous state and the random draws, the values written
by a tick are inside the channels' domains: methane, carbonMonoxide and
hydrogen are non-negative and the oxygen value, stored in both oxygen
entries, lies in `[15, 25]`. -/
theorem tick_values_in_domain (s : State) (env : Env) :
    0 ≤ (tick s env).gasLevels.methane.value ∧
    0 ≤ (tick s env).gasLevels.carbonMonoxide.value ∧
    0 ≤ (tick s env).gasLevels.hydrogen.value ∧
    (15 ≤ (tick s env).gasLevels.oxygenLow.value ∧ (tick s env).gasLevels.oxygenLow.value ≤ 25) ∧
    (15 ≤ (tick s env).gasLevels.oxygenHigh.value ∧
      (tick s env).gasLevels.oxygenHigh.value ≤ 25) := by
  have hox : ∀ x : ℚ, 15 ≤ max 15 (min 25 x) ∧ max 15 (min 25 x) ≤ 25 := fun x =>
    ⟨le_max_left _ _, max_le (by norm_num) (min_le_left _ _)⟩
  exact ⟨le_max_left _ _, le_max_left _ _, le_max_left _ _, hox _, hox _⟩

/-! ## Alert creation -/

theorem alertCallback_safe (env : Env) (acc : Effects) (entry : String × GasEntry)
    (h : entry.2.safe = true) : alertCallback env acc entry = acc := by
  simp [alertCallback, h]

theorem alertCallback_quiet (env : Env) (acc : Effects) (entry : String × GasEntry)
    (h : entry.2.safe = false) (hr : ¬ env.random acc.randomCalls > 0.7) :
    alertCallback env acc entry = { acc with randomCalls := acc.randomCalls + 1 } := by
  simp only [alertCallback, h, Bool.false_eq_true, if_false, hr]

theorem alertCallback_fire (env : Env) (acc : Effects) (entry : String × GasEntry)
    (h : entry.2.safe = false) (hr : env.random acc.randomCalls > 0.7) :
    (alertCallback env acc entry).queued =
      acc.queued ++ [newTickAlert entry.1 entry.2 (env.now acc.clockCalls)
        (env.now (acc.clockCalls + 1))] ∧
    (alertCallback env acc entry).randomCalls = acc.randomCalls + 1 := by
  simp only [alertCallback, h, Bool.false_eq_true, if_false, hr, if_true, and_self]

/-- Every alert queued by the `forEach` over a list of entries was either
queued before or was built from an unsafe entry of the list. -/
theorem mem_queued_foldl (env : Env) (l : List (String × GasEntry)) (acc : Effects) (a : Alert)
    (ha : a ∈ (l.foldl (alertCallback env) acc).queued) :
    a ∈ acc.queued ∨
      ∃ e ∈ l, e.2.safe = false ∧ a.type = e.1 ∧ a.severity = alertSeverity e.2 := by
  induction l generalizing acc with
  | nil => exact Or.inl ha
  | cons e l ih =>
    rw [List.foldl_cons] at ha
    rcases ih _ ha with h | ⟨e', he', h⟩
    · by_cases hs : e.2.safe = true
      · rw [alertCallback_safe env acc e hs] at h
        exact Or.inl h
      · have hs' : e.2.safe = false := by simpa using hs
        by_cases hr : env.random acc.randomCalls > 0.7
        · rw [(alertCallback_fire env acc e hs' hr).1, List.mem_append, List.mem_singleton] at h
          rcases h with h | h
          · exact Or.inl h
          · exact Or.inr ⟨e, List.mem_cons_self _ _, hs', by rw [h]; rfl, by rw [h]; rfl⟩
        · rw [alertCallback_quiet env acc e hs' hr] at h
          exact Or.inl h
    · exact Or.inr ⟨e', List.mem_cons_of_mem _ he', h⟩

theorem alertSeverity_of_threshold (data : GasEntry) (t : ℚ) (ht : t ≠ 0)
    (h : data.threshold = some t) :
    alertSeverity data = if data.value > 1.5 * t then "high" else "medium" := by
  simp [alertSeverity, alertLimit, jsOr, jsMul, jsGt, h, ht, mul_comm]

theorem alertSeverity_of_thresholdHigh (data : GasEntry) (t : ℚ) (ht : t ≠ 0)
    (h : data.threshold = none) (hh : data.thresholdHigh = some t) :
    alertSeverity data = if data.value > 1.5 * t then "high" else "medium" := by
  simp [alertSeverity, alertLimit, jsOr, jsMul, jsGt, h, hh, ht, mul_comm]

theorem alertSeverity_of_thresholdLow (data : GasEntry) (t : ℚ)
    (h : data.threshold = none) (hh : data.thresholdHigh = none)
    (hl : data.thresholdLow = some t) :
    alertSeverity data = if data.value > 1.5 * t then "high" else "medium" := by
  simp [alertSeverity, alertLimit, jsOr, jsMul, jsGt, h, hh, hl, mul_comm]

/-- C6: every alert a tick creates comes from an unsafe entry and has severity
`'high'` when that entry's new value exceeds 1.5 times its limit and
`'medium'` otherwise, the limit being 1.0 for methane, 50 for carbonMonoxide,
4.0 for hydrogen, the low bound 19.5 for oxygenLow and the high bound 23.5
for oxygenHigh. -/
theorem tick_alert_severity (s : State) (env : Env) (h : Configured s.gasLevels) (a : Alert)
    (ha : a ∈ (tickEffects (tick s env).gasLevels env).queued) :
    (a.type = "methane" ∧ (tick s env).gasLevels.methane.safe = false ∧
      a.severity = if (tick s env).gasLevels.methane.value > 1.5 * 1.0
        then "high" else "medium") ∨
    (a.type = "carbonMonoxide" ∧ (tick s env).gasLevels.carbonMonoxide.safe = false ∧
      a.severity = if (tick s env).gasLevels.carbonMonoxide.value > 1.5 * 50
        then "high" else "medium") ∨
    (a.type = "hydrogen" ∧ (tick s env).gasLevels.hydrogen.safe = false ∧
      a.severity = if (tick s env).gasLevels.hydrogen.value > 1.5 * 4.0
        then "high" else "medium") ∨
    (a.type = "oxygenLow" ∧ (tick s env).gasLevels.oxygenLow.safe = false ∧
      a.severity = if (tick s env).gasLevels.oxygenLow.value > 1.5 * 19.5
        then "high" else "medium") ∨
    (a.type = "oxygenHigh" ∧ (tick s env).gasLevels.oxygenHigh.safe = false ∧
      a.severity = if (tick s env).gasLevels.oxygenHigh.value > 1.5 * 23.5
        then "high" else "medium") := by
  have hc : Configured (tick s env).gasLevels := configured_sample env h
  obtain ⟨⟨hm, -, -⟩, ⟨hco, -, -⟩, ⟨hh, -, -⟩, ⟨hl0, hl, hl1⟩, ⟨hh0, -, hh1⟩⟩ := hc
  rcases mem_queued_foldl env _ _ a ha with h0 | ⟨e, he, hs, ht, hsev⟩
  · exact absurd h0 (List.not_mem_nil a)
  · simp only [entries, List.mem_cons, List.mem_singleton, List.not_mem_nil, or_false] at he
    rcases he with rfl | rfl | rfl | rfl | rfl
    · exact Or.inl ⟨ht, hs, by
        rw [hsev]; exact alertSeverity_of_threshold _ 1.0 (by norm_num) hm⟩
    · exact Or.inr (Or.inl ⟨ht, hs, by
        rw [hsev]; exact alertSeverity_of_threshold _ 50 (by norm_num) hco⟩)
    · exact Or.inr (Or.inr (Or.inl ⟨ht, hs, by
        rw [hsev]; exact alertSeverity_of_threshold _ 4.0 (by norm_num) hh⟩))
    · exact Or.inr (Or.inr (Or.inr (Or.inl ⟨ht, hs, by
        rw [hsev]; exact alertSeverity_of_thresholdLow _ 19.5 hl0 hl1 hl⟩)))
    · exact Or.inr (Or.inr (Or.inr (Or.inr ⟨ht, hs, by
        rw [hsev]; exact alertSeverity_of_thresholdHigh _ 23.5 (by norm_num) hh0 hh1⟩)))

theorem overLimit_queued :
    (tickEffects (tick overLimitState firingEnv).gasLevels firingEnv).queued =
      [newTickAlert "methane" (tick overLimitState firingEnv).gasLevels.methane 1000 1001,
       newTickAlert "carbonMonoxide" (tick overLimitState firingEnv).gasLevels.carbonMonoxide
         1002 1003] := by
  norm_num [tickEffects, tick, sample, entries, alertCallback, overLimitState, firingEnv,
    initialState, initialGasLevels, jsLt, jsGt]

theorem overLimit_values :
    (tick overLimitState firingEnv).gasLevels.methane.value = 1.6 ∧
    (tick overLimitState firingEnv).gasLevels.carbonMonoxide.value = 60 := by
  norm_num [tick, sample, overLimitState, firingEnv, initialState, initialGasLevels]

theorem tick_alert_severity_witness :
    Configured overLimitState.gasLevels ∧
    newTickAlert "methane" (tick overLimitState firingEnv).gasLevels.methane 1000 1001 ∈
      (tickEffects (tick overLimitState firingEnv).gasLevels firingEnv).queued ∧
    (newTickAlert "methane" (tick overLimitState firingEnv).gasLevels.methane
      1000 1001).severity = "high" := by
  have hc : Configured overLimitState.gasLevels := configured_initial
  have hmem : newTickAlert "methane" (tick overLimitState firingEnv).gasLevels.methane 1000 1001 ∈
      (tickEffects (tick overLimitState firingEnv).gasLevels firingEnv).queued := by
    rw [overLimit_queued]
    exact List.mem_cons_self _ _
  refine ⟨hc, hmem, ?_⟩
  rcases tick_alert_severity overLimitState firingEnv hc _ hmem with
    h | h | h | h | h
  · rw [h.2.2, overLimit_values.1]
    norm_num
  · exact absurd h.1 (by decide)
  · exact absurd h.1 (by decide)
  · exact absurd h.1 (by decide)
  · exact absurd h.1 (by decide)

/-! ## The alert log -/

theorem alertUpdater_length (a : Alert) (L : List Alert) :
    (alertUpdater a L).length = min (L.length + 1) 10 := by
  simp only [alertUpdater, List.length_take, List.length_cons]
  omega

theorem foldl_alertUpdater_length (Q : List Alert) (L : List Alert) :
    Q.foldl (fun prev newAlert => alertUpdater newAlert prev) L = L ∨
      (Q.foldl (fun prev newAlert => alertUpdater newAlert prev) L).length ≤ 10 := by
  induction Q generalizing L with
  | nil => exact Or.inl rfl
  | cons a Q ih =>
    rw [List.foldl_cons]
    rcases ih (alertUpdater a L) with h | h
    · right
      rw [h, alertUpdater_length]
      exact min_le_right _ _
    · exact Or.inr h

theorem tick_alerts_length (s : State) (env : Env) :
    (tick s env).alerts = s.alerts ∨ (tick s env).alerts.length ≤ 10 :=
  foldl_alertUpdater_length _ _

theorem handleEmergencyAlert_alerts_length (s : State) (user : User) (env : Env) :
    (handleEmergencyAlert s user env).alerts.length ≤ 10 := by
  show (alertUpdater _ s.alerts).length ≤ 10
  rw [alertUpdater_length]
  exact min_le_right _ _

/-- C7: the alert log starts empty, an insertion into a log of length `n`
gives length `min (n + 1) 10`, a tick either leaves the log as it was or
leaves at most 10 entries, `handleEmergencyAlert` leaves at most 10 entries,
and so every reachable log has at most 10 entries. -/
theorem alerts_length_le_ten :
    initialState.alerts = [] ∧
    (∀ (a : Alert) (L : List Alert), (alertUpdater a L).length = min (L.length + 1) 10) ∧
    (∀ (s : State) (env : Env),
      (tick s env).alerts = s.alerts ∨ (tick s env).alerts.length ≤ 10) ∧
    (∀ (s : State) (user : User) (env : Env),
      (handleEmergencyAlert s user env).alerts.length ≤ 10) ∧
    (∀ s : State, Reachable s → s.alerts.length ≤ 10) := by
  refine ⟨rfl, alertUpdater_length, tick_alerts_length, handleEmergencyAlert_alerts_length, ?_⟩
  intro s hs
  induction hs with
  | init => simp [initialState]
  | tick env _ _ _ ih =>
    rcases tick_alerts_length _ env with h | h
    · rw [h]; exact ih
    · exact h
  | emergency user env _ _ => exact handleEmergencyAlert_alerts_length _ user env
  | toggle _ ih => exact ih

/-- C8: inserting alert `a` into log `L` gives `a` followed by the first
`min |L| 9` entries of `L` in their order; a log of fewer than 10 entries is
kept whole, and from a log of exactly 10 the last (oldest) entry is the one
dropped. -/
theorem alertUpdater_prepends (a : Alert) (L : List Alert) :
    alertUpdater a L = a :: L.take (min L.length 9) ∧
    (L.length < 10 → alertUpdater a L = a :: L) ∧
    (L.length = 10 → alertUpdater a L = a :: L.dropLast) := by
  have h9 : alertUpdater a L = a :: L.take 9 := rfl
  refine ⟨?_, fun h => ?_, fun h => ?_⟩
  · rw [h9]
    rcases Nat.le_total L.length 9 with h | h
    · rw [Nat.min_eq_left h, List.take_of_length_le h, List.take_of_length_le (le_refl _)]
    · rw [Nat.min_eq_right h]
  · rw [h9, List.take_of_length_le (by omega)]
  · rw [h9, List.dropLast_eq_take, h]

/-! ## The emergency button -/

/-- C9: whatever the state and the initiator, `handleEmergencyAlert` puts one
new alert at the head of the log, in front of the (first 9) previous entries,
with type `'emergency'`, severity `'high'` and a message ending in the
initiator's name, and makes exactly one call `toast.error` to the sink. -/
theorem handleEmergencyAlert_effect (s : State) (user : User) (env : Env) :
    ∃ a : Alert,
      (handleEmergencyAlert s user env).alerts = a :: s.alerts.take 9 ∧
      a.type = "emergency" ∧ a.severity = "high" ∧
      a.message = "Emergency alert triggered by " ++ user.name ∧
      user.name.data <:+: a.message.data ∧
      (handleEmergencyAlert s user env).toasts =
        s.toasts ++ [{ kind := "error", message := "🚨 EMERGENCY ALERT SENT TO ALL PERSONNEL!" }] := by
  refine ⟨_, rfl, rfl, rfl, rfl, ?_, rfl⟩
  show user.name.data <:+: ("Emergency alert triggered by " ++ user.name).data
  rw [String.data_append]
  exact (List.suffix_append _ _).isInfix

/-! ## Throttling of tick alerts -/

theorem exists_queued_type_foldl (env : Env) (n : String) (l : List (String × GasEntry))
    (acc : Effects) :
    (∃ a ∈ (l.foldl (alertCallback env) acc).queued, a.type = n) ↔
      (∃ a ∈ acc.queued, a.type = n) ∨ firesFor env n acc.randomCalls l := by
  induction l generalizing acc with
  | nil => simp [firesFor]
  | cons e l ih =>
    rw [List.foldl_cons, ih]
    by_cases hs : e.2.safe = true
    · rw [alertCallback_safe env acc e hs]
      simp [firesFor, hs]
    · have hs' : e.2.safe = false := by simpa using hs
      by_cases hr : env.random acc.randomCalls > 0.7
      · obtain ⟨hq, hk⟩ := alertCallback_fire env acc e hs' hr
        rw [hq, hk]
        have ht : (newTickAlert e.1 e.2 (env.now acc.clockCalls)
            (env.now (acc.clockCalls + 1))).type = e.1 := rfl
        simp only [firesFor, hs', Bool.false_eq_true, if_false, List.mem_append,
          List.mem_singleton]
        constructor
        · rintro (⟨a, ha | ha, hn⟩ | h)
          · exact Or.inl ⟨a, ha, hn⟩
          · exact Or.inr (Or.inl ⟨by rw [← hn, ha, ht], hr⟩)
          · exact Or.inr (Or.inr h)
        · rintro (⟨a, ha, hn⟩ | ⟨hn, -⟩ | h)
          · exact Or.inl ⟨a, Or.inl ha, hn⟩
          · exact Or.inl ⟨_, Or.inr rfl, by rw [ht, hn]⟩
          · exact Or.inr h
      · rw [alertCallback_quiet env acc e hs' hr]
        simp only [firesFor, hs', Bool.false_eq_true, if_false]
        constructor
        · rintro (h | h)
          · exact Or.inl h
          · exact Or.inr (Or.inr h)
        · rintro (h | ⟨-, h⟩ | h)
          · exact Or.inl h
          · exact absurd h hr
          · exact Or.inr h

theorem exists_queued_type_iff (g : GasLevels) (env : Env) (n : String) :
    (∃ a ∈ (tickEffects g env).queued, a.type = n) ↔ firesFor env n 4 (entries g) := by
  unfold tickEffects
  rw [exists_queued_type_foldl]
  simp

theorem queued_type_iff (g : GasLevels) (env : Env) :
    ((∃ a ∈ (tickEffects g env).queued, a.type = "methane") ↔
      (g.methane.safe = false ∧ env.random 4 > 0.7)) ∧
    ((∃ a ∈ (tickEffects g env).queued, a.type = "carbonMonoxide") ↔
      (g.carbonMonoxide.safe = false ∧ env.random (4 + drawsOf g.methane) > 0.7)) ∧
    ((∃ a ∈ (tickEffects g env).queued, a.type = "hydrogen") ↔
      (g.hydrogen.safe = false ∧
        env.random (4 + drawsOf g.methane + drawsOf g.carbonMonoxide) > 0.7)) ∧
    ((∃ a ∈ (tickEffects g env).queued, a.type = "oxygenLow") ↔
      (g.oxygenLow.safe = false ∧
        env.random (4 + drawsOf g.methane + drawsOf g.carbonMonoxide + drawsOf g.hydrogen)
          > 0.7)) ∧
    ((∃ a ∈ (tickEffects g env).queued, a.type = "oxygenHigh") ↔
      (g.oxygenHigh.safe = false ∧
        env.random (4 + drawsOf g.methane + drawsOf g.carbonMonoxide + drawsOf g.hydrogen +
          drawsOf g.oxygenLow) > 0.7)) := by
  simp only [exists_queued_type_iff, entries, firesFor, drawsOf]
  refine ⟨?_, ?_, ?_, ?_, ?_⟩ <;>
  · cases g.methane.safe <;> cases g.carbonMonoxide.safe <;> cases g.hydrogen.safe <;>
      cases g.oxygenLow.safe <;> cases g.oxygenHigh.safe <;> simp

theorem foldl_alertCallback_quiet (env : Env) (hq : ∀ k, env.random k ≤ 0.7)
    (l : List (String × GasEntry)) (acc : Effects) :
    (l.foldl (alertCallback env) acc).queued = acc.queued ∧
    (l.foldl (alertCallback env) acc).toasts = acc.toasts := by
  induction l generalizing acc with
  | nil => exact ⟨rfl, rfl⟩
  | cons e l ih =>
    rw [List.foldl_cons]
    by_cases hs : e.2.safe = true
    · rw [alertCallback_safe env acc e hs]
      exact ih acc
    · have hs' : e.2.safe = false := by simpa using hs
      rw [alertCallback_quiet env acc e hs' (not_lt.mpr (hq _))]
      exact ih _

/-- C10: a tick creates an alert for an entry exactly when the entry's new
verdict is unsafe and the random number drawn for that entry exceeds `0.7`
(the draws are taken in entry order after the four sampling draws, and only
for unsafe entries). Hence a safe entry produces no alert, an unsafe entry
whose draw is at most `0.7` produces none, and a tick whose draws are all at
most `0.7` leaves the alert log and the sink untouched whatever is unsafe. -/
theorem tick_creates_alert_iff (s : State) (env : Env) :
    ((∃ a ∈ (tickEffects (tick s env).gasLevels env).queued, a.type = "methane") ↔
      ((tick s env).gasLevels.methane.safe = false ∧ env.random 4 > 0.7)) ∧
    ((∃ a ∈ (tickEffects (tick s env).gasLevels env).queued, a.type = "carbonMonoxide") ↔
      ((tick s env).gasLevels.carbonMonoxide.safe = false ∧
        env.random (4 + drawsOf (tick s env).gasLevels.methane) > 0.7)) ∧
    ((∃ a ∈ (tickEffects (tick s env).gasLevels env).queued, a.type = "hydrogen") ↔
      ((tick s env).gasLevels.hydrogen.safe = false ∧
        env.random (4 + drawsOf (tick s env).gasLevels.methane +
          drawsOf (tick s env).gasLevels.carbonMonoxide) > 0.7)) ∧
    ((∃ a ∈ (tickEffects (tick s env).gasLevels env).queued, a.type = "oxygenLow") ↔
      ((tick s env).gasLevels.oxygenLow.safe = false ∧
        env.random (4 + drawsOf (tick s env).gasLevels.methane +
          drawsOf (tick s env).gasLevels.carbonMonoxide +
          drawsOf (tick s env).gasLevels.hydrogen) > 0.7)) ∧
    ((∃ a ∈ (tickEffects (tick s env).gasLevels env).queued, a.type = "oxygenHigh") ↔
      ((tick s env).gasLevels.oxygenHigh.safe = false ∧
        env.random (4 + drawsOf (tick s env).gasLevels.methane +
          drawsOf (tick s env).gasLevels.carbonMonoxide +
          drawsOf (tick s env).gasLevels.hydrogen +
          drawsOf (tick s env).gasLevels.oxygenLow) > 0.7)) ∧
    (tick s env).alerts =
      (tickEffects (tick s env).gasLevels env).queued.foldl
        (fun prev newAlert => alertUpdater newAlert prev) s.alerts ∧
    ((∀ k, env.random k ≤ 0.7) →
      (tick s env).alerts = s.alerts ∧ (tick s env).toasts = s.toasts) := by
  obtain ⟨h1, h2, h3, h4, h5⟩ := queued_type_iff (tick s env).gasLevels env
  refine ⟨h1, h2, h3, h4, h5, rfl, fun hq => ?_⟩
  obtain ⟨hQ, hT⟩ := foldl_alertCallback_quiet env hq (entries (sample s.gasLevels env))
    { randomCalls := 4, clockCalls := 0, queued := [], toasts := [] }
  constructor
  · show List.foldl _ s.alerts (tickEffects (sample s.gasLevels env) env).queued = s.alerts
    unfold tickEffects
    rw [hQ]
    rfl
  · show s.toasts ++ (tickEffects (sample s.gasLevels env) env).toasts = s.toasts
    unfold tickEffects
    rw [hT]
    exact List.append_nil _

theorem tick_creates_alert_iff_witness :
    (tick overLimitState midEnv).gasLevels.methane.safe = false ∧
    (tick overLimitState midEnv).alerts = overLimitState.alerts ∧
    (tick overLimitState midEnv).toasts = overLimitState.toasts ∧
    (∃ a ∈ (tickEffects (tick overLimitState firingEnv).gasLevels firingEnv).queued,
      a.type = "methane") := by
  have hq : ∀ k, midEnv.random k ≤ 0.7 := fun k => by norm_num [midEnv]
  have hs : (tick overLimitState midEnv).gasLevels.methane.safe = false := by
    norm_num [tick, sample, overLimitState, midEnv, initialState, initialGasLevels, jsLt]
  have hs2 : (tick overLimitState firingEnv).gasLevels.methane.safe = false := by
    norm_num [tick, sample, overLimitState, firingEnv, initialState, initialGasLevels, jsLt]
  have h := (tick_creates_alert_iff overLimitState midEnv).2.2.2.2.2.2 hq
  refine ⟨hs, h.1, h.2, ?_⟩
  exact (tick_creates_alert_iff overLimitState firingEnv).1.mpr
    ⟨hs2, by norm_num [firingEnv]⟩

/-! ## Notification of tick alerts -/

theorem foldl_alertCallback_toasts (env : Env) (l : List (String × GasEntry)) (acc : Effects) :
    ∃ new : List Alert,
      (l.foldl (alertCallback env) acc).queued = acc.queued ++ new ∧
      (l.foldl (alertCallback env) acc).toasts =
        acc.toasts ++ (new.filter (fun a => a.severity = "high")).map
          (fun a => { kind := "error", message := a.message }) := by
  induction l generalizing acc with
  | nil => exact ⟨[], by simp, by simp⟩
  | cons e l ih =>
    rw [List.foldl_cons]
    by_cases hs : e.2.safe = true
    · rw [alertCallback_safe env acc e hs]
      exact ih acc
    · have hs' : e.2.safe = false := by simpa using hs
      by_cases hr : env.random acc.randomCalls > 0.7
      · obtain ⟨new, hq, ht⟩ := ih (alertCallback env acc e)
        refine ⟨newTickAlert e.1 e.2 (env.now acc.clockCalls) (env.now (acc.clockCalls + 1))
          :: new, ?_, ?_⟩
        · rw [hq, (alertCallback_fire env acc e hs' hr).1, List.append_assoc]
          rfl
        · rw [ht]
          simp only [alertCallback, hs', Bool.false_eq_true, if_false, hr, if_true]
          by_cases hsev : (newTickAlert e.1 e.2 (env.now acc.clockCalls)
              (env.now (acc.clockCalls + 1))).severity = "high"
          · simp [hsev]
          · simp [hsev]
      · rw [alertCallback_quiet env acc e hs' hr]
        exact ih _

/-- C11: the calls a tick makes to the sink are exactly one `toast.error` per
created alert of severity `'high'`, with that alert's message, in creation
order; a created alert of another severity (`'medium'`) causes no call. -/
theorem tick_toasts_high_only (s : State) (env : Env) :
    (tick s env).toasts =
      s.toasts ++
        ((tickEffects (tick s env).gasLevels env).queued.filter
          (fun a => a.severity = "high")).map
          (fun a => { kind := "error", message := a.message }) := by
  obtain ⟨new, hq, ht⟩ := foldl_alertCallback_toasts env (entries (sample s.gasLevels env))
    { randomCalls := 4, clockCalls := 0, queued := [], toasts := [] }
  show s.toasts ++ (tickEffects (sample s.gasLevels env) env).toasts = _
  rw [tick_gasLevels]
  unfold tickEffects
  rw [ht, hq]
  simp

theorem tick_toasts_high_only_witness :
    (tick overLimitState firingEnv).toasts =
      [{ kind := "error"
         message := (newTickAlert "methane" (tick overLimitState firingEnv).gasLevels.methane
           1000 1001).message }] ∧
    (tickEffects (tick overLimitState firingEnv).gasLevels firingEnv).queued.length = 2 := by
  have h := tick_toasts_high_only overLimitState firingEnv
  have hv := overLimit_values
  rw [overLimit_queued] at h
  refine ⟨?_, by rw [overLimit_queued]; rfl⟩
  rw [h]
  have h1 : (newTickAlert "methane" (tick overLimitState firingEnv).gasLevels.methane
      1000 1001).severity = "high" := by
    have hm : (tick overLimitState firingEnv).gasLevels.methane.threshold = some 1.0 := rfl
    rw [newTickAlert, alertSeverity_of_threshold _ 1.0 (by norm_num) hm, hv.1]
    norm_num
  have h2 : (newTickAlert "carbonMonoxide"
      (tick overLimitState firingEnv).gasLevels.carbonMonoxide 1002 1003).severity
        = "medium" := by
    have hm : (tick overLimitState firingEnv).gasLevels.carbonMonoxide.threshold = some 50 := rfl
    rw [newTickAlert, alertSeverity_of_threshold _ 50 (by norm_num) hm, hv.2]
    norm_num
  have ht0 : overLimitState.toasts = [] := rfl
  rw [ht0, List.filter_cons_of_pos (by simp [h1]), List.filter_cons_of_neg (by simp [h2]),
    List.filter_nil]
  rfl

/-! ## The prediction is a function of the current verdicts -/

theorem unsafeCount_of_safeFlags (g g' : GasLevels) (h : safeFlags g = safeFlags g') :
    unsafeCount g = unsafeCount g' := by
  simp only [safeFlags, values, List.map_cons, List.map_nil, List.cons.injEq, and_true] at h
  obtain ⟨h1, h2, h3, h4, h5⟩ := h
  rw [unsafeCount_eq, unsafeCount_eq, h1, h2, h3, h4, h5]

theorem tick_predictions (s : State) (env : Env) :
    (tick s env).predictions = updatePredictions (tick s env).gasLevels := rfl

/-- C13: the prediction has no memory. Two verdict sets with the same `safe`
flags give the same value of `updatePredictions`, and hence any two ticks whose
new verdict sets are these store the same prediction, whatever their previous
predictions, alert logs, readings and numeric values were. -/
theorem updatePredictions_memoryless (g g' : GasLevels) (h : safeFlags g = safeFlags g') :
    updatePredictions g = updatePredictions g' ∧
    ∀ (s s' : State) (env env' : Env),
      (tick s env).gasLevels = g → (tick s' env').gasLevels = g' →
      (tick s env).predictions = (tick s' env').predictions := by
  have hp : updatePredictions g = updatePredictions g' := by
    unfold updatePredictions
    rw [unsafeCount_of_safeFlags g g' h]
  refine ⟨hp, fun s s' env env' hg hg' => ?_⟩
  rw [tick_predictions, tick_predictions, hg, hg', hp]

theorem updatePredictions_memoryless_witness :
    initialState.predictions ≠ otherHistoryState.predictions ∧
    initialState.alerts ≠ otherHistoryState.alerts ∧
    (tick initialState midEnv).gasLevels ≠ (tick otherHistoryState firingEnv).gasLevels ∧
    (tick initialState midEnv).predictions = (tick otherHistoryState firingEnv).predictions := by
  have hf : safeFlags (tick initialState midEnv).gasLevels =
      safeFlags (tick otherHistoryState firingEnv).gasLevels := by
    norm_num [safeFlags, values, tick, sample, initialState, otherHistoryState, initialGasLevels,
      midEnv, firingEnv, jsLt, jsGt]
  have hv : (tick initialState midEnv).gasLevels.carbonMonoxide.value ≠
      (tick otherHistoryState firingEnv).gasLevels.carbonMonoxide.value := by
    norm_num [tick, sample, initialState, otherHistoryState, initialGasLevels, midEnv, firingEnv]
  refine ⟨by decide, by decide, fun h => hv (by rw [h]), ?_⟩
  exact (updatePredictions_memoryless _ _ hf).2 initialState otherHistoryState midEnv firingEnv
    rfl rfl

/-! ## The prediction after a tick -/

theorem unsafeCount_sample_eq_violations (g : GasLevels) (env : Env) (h : Configured g) :
    unsafeCount (sample g env) = violations (sample g env) := by
  obtain ⟨⟨hm, -, -⟩, ⟨hc, -, -⟩, ⟨hh, -, -⟩, ⟨-, hl, -⟩, ⟨-, -, hhi⟩⟩ := h
  have hm1 : g.methane.threshold = some 1.0 := hm
  have hc1 : g.carbonMonoxide.threshold = some 50 := hc
  have hh1 : g.hydrogen.threshold = some 4.0 := hh
  have hl1 : g.oxygenLow.thresholdLow = some 19.5 := hl
  have hhi1 : g.oxygenHigh.thresholdHigh = some 23.5 := hhi
  rw [unsafeCount_eq, violations, sample_methane_safe, sample_carbonMonoxide_safe,
    sample_hydrogen_safe, sample_oxygenLow_safe, sample_oxygenHigh_safe, sample_oxygen_value,
    hm1, hc1, hh1, hl1, hhi1]
  simp only [jsLt, jsGt, decide_eq_true_eq, add_assoc]
  congr 1
  congr 1
  congr 1
  by_cases h1 : (sample g env).oxygenLow.value > 19.5
  · by_cases h2 : (sample g env).oxygenLow.value < 23.5
    · simp [h1, h2]
    · simp [h1, h2]
  · have h2 : (sample g env).oxygenLow.value < 23.5 :=
      lt_of_le_of_lt (not_lt.mp h1) (by norm_num)
    simp [h1, h2]

theorem violations_eq_zero_iff (g : GasLevels) :
    violations g = 0 ↔
      (g.methane.value < 1.0 ∧ g.carbonMonoxide.value < 50 ∧ g.hydrogen.value < 4.0 ∧
        19.5 < g.oxygenLow.value ∧ g.oxygenLow.value < 23.5) := by
  unfold violations
  constructor
  · intro h
    by_cases h1 : g.methane.value < 1.0 <;> by_cases h2 : g.carbonMonoxide.value < 50 <;>
      by_cases h3 : g.hydrogen.value < 4.0 <;>
      by_cases h4 : 19.5 < g.oxygenLow.value ∧ g.oxygenLow.value < 23.5 <;>
      simp only [h1, h2, h3, h4, if_true, if_false] at h <;>
      first
      | exact ⟨h1, h2, h3, h4.1, h4.2⟩
      | exact absurd h (by decide)
  · rintro ⟨h1, h2, h3, h4, h5⟩
    simp [h1, h2, h3, h4, h5]

theorem updatePredictions_low_iff (g : GasLevels) :
    (updatePredictions g).riskLevel = "Low" ↔ unsafeCount g = 0 := by
  unfold updatePredictions
  by_cases h1 : unsafeCount g = 1
  · simp [h1]
  · by_cases h2 : unsafeCount g ≥ 2
    · have h0 : unsafeCount g ≠ 0 := by omega
      simp [h1, h2, h0]
    · have h0 : unsafeCount g = 0 := by omega
      simp [h0]

/-- C14: after a tick the stored prediction is the one of that tick's new
values: the risk level is Low exactly when the new methane, carbonMonoxide and
hydrogen values are below 1.0, 50 and 4.0 and the new oxygen value is strictly
between 19.5 and 23.5; it is the Medium record when exactly one channel
violates its limit and the High record when at least two do. -/
theorem tick_prediction_matches_new_values (s : State) (env : Env)
    (h : Configured s.gasLevels) :
    ((tick s env).predictions.riskLevel = "Low" ↔
      ((tick s env).gasLevels.methane.value < 1.0 ∧
        (tick s env).gasLevels.carbonMonoxide.value < 50 ∧
        (tick s env).gasLevels.hydrogen.value < 4.0 ∧
        19.5 < (tick s env).gasLevels.oxygenLow.value ∧
        (tick s env).gasLevels.oxygenLow.value < 23.5)) ∧
    (violations (tick s env).gasLevels = 1 → (tick s env).predictions =
      { riskLevel := "Medium"
        nextHourPrediction := "Potential for worsening conditions in the next hour"
        recommendedActions :=
          ["Increase ventilation in affected areas",
           "Monitor gas levels more frequently",
           "Prepare for possible evacuation if levels continue to rise"] }) ∧
    (2 ≤ violations (tick s env).gasLevels → (tick s env).predictions =
      { riskLevel := "High"
        nextHourPrediction := "High probability of dangerous conditions developing"
        recommendedActions :=
          ["Begin evacuation procedures immediately",
           "Activate emergency response team",
           "Shut down non-essential operations",
           "Identify source of gas leaks"] }) := by
  have hu : unsafeCount (tick s env).gasLevels = violations (tick s env).gasLevels :=
    unsafeCount_sample_eq_violations s.gasLevels env h
  rw [tick_predictions, updatePredictions_low_iff, hu, violations_eq_zero_iff]
  refine ⟨Iff.rfl, fun h1 => ?_, fun h2 => ?_⟩
  · rw [← hu] at h1
    simp [updatePredictions, h1]
  · rw [← hu] at h2
    have h1 : unsafeCount (tick s env).gasLevels ≠ 1 := by omega
    simp [updatePredictions, h1, h2]

theorem tick_prediction_matches_new_values_witness :
    (tick methaneOnlyState midEnv).gasLevels.methane.value = 1.2 ∧
    (tick methaneOnlyState midEnv).predictions.riskLevel = "Medium" ∧
    (tick overLimitState midEnv).predictions.riskLevel = "High" ∧
    (tick initialState midEnv).gasLevels.oxygenLow.value = 21 ∧
    (tick initialState midEnv).predictions.riskLevel = "Low" := by
  have hv : (tick methaneOnlyState midEnv).gasLevels.methane.value = 1.2 := by
    norm_num [tick, sample, methaneOnlyState, initialState, initialGasLevels, midEnv]
  have h1 : violations (tick methaneOnlyState midEnv).gasLevels = 1 := by
    norm_num [violations, tick, sample, methaneOnlyState, initialState, initialGasLevels, midEnv]
  have h2 : 2 ≤ violations (tick overLimitState midEnv).gasLevels := by
    norm_num [violations, tick, sample, overLimitState, initialState, initialGasLevels, midEnv]
  have ho : (tick initialState midEnv).gasLevels.oxygenLow.value = 21 := by
    norm_num [tick, sample, initialState, initialGasLevels, midEnv]
  refine ⟨hv, ?_, ?_, ho, ?_⟩
  · rw [(tick_prediction_matches_new_values methaneOnlyState midEnv configured_initial).2.1 h1]
  · rw [(tick_prediction_matches_new_values overLimitState midEnv configured_initial).2.2 h2]
  · apply (tick_prediction_matches_new_values initialState midEnv configured_initial).1.mpr
    norm_num [tick, sample, initialState, initialGasLevels, midEnv]

/-! ## Size of a sampling step and clamping -/

theorem sample_values (g : GasLevels) (env : Env) :
    (sample g env).methane.value = clampLower (g.methane.value + methaneDelta env) ∧
    (sample g env).carbonMonoxide.value = clampLower (g.carbonMonoxide.value + coDelta env) ∧
    (sample g env).hydrogen.value = clampLower (g.hydrogen.value + h2Delta env) ∧
    (sample g env).oxygenLow.value = clampOxygen (g.oxygenLow.value + o2Delta env) ∧
    (sample g env).oxygenHigh.value = clampOxygen (g.oxygenLow.value + o2Delta env) :=
  ⟨rfl, rfl, rfl, rfl, rfl⟩

theorem lowEnv_randomInRange : lowEnv.RandomInRange :=
  fun _ => ⟨le_refl _, by norm_num [lowEnv]⟩

/-- C16: both clamps are idempotent and leave a value inside the domain
unchanged, for every number `x`; these are the clamps the sampling step
applies. -/
theorem clamps_idempotent (x : ℚ) :
    clampOxygen (clampOxygen x) = clampOxygen x ∧
    clampLower (clampLower x) = clampLower x ∧
    (15 ≤ x → x ≤ 25 → clampOxygen x = x) ∧
    (0 ≤ x → clampLower x = x) ∧
    (∀ (g : GasLevels) (env : Env),
      clampLower (sample g env).methane.value = (sample g env).methane.value ∧
      clampLower (sample g env).carbonMonoxide.value = (sample g env).carbonMonoxide.value ∧
      clampLower (sample g env).hydrogen.value = (sample g env).hydrogen.value ∧
      clampOxygen (sample g env).oxygenLow.value = (sample g env).oxygenLow.value ∧
      clampOxygen (sample g env).oxygenHigh.value = (sample g env).oxygenHigh.value) := by
  have hO : ∀ y : ℚ, 15 ≤ y → y ≤ 25 → clampOxygen y = y := fun y h1 h2 => by
    unfold clampOxygen
    rw [min_eq_right h2, max_eq_right h1]
  have hL : ∀ y : ℚ, 0 ≤ y → clampLower y = y := fun y h => max_eq_right h
  have hOr : ∀ y : ℚ, 15 ≤ clampOxygen y ∧ clampOxygen y ≤ 25 := fun y =>
    ⟨le_max_left _ _, max_le (by norm_num) (min_le_left _ _)⟩
  have hLr : ∀ y : ℚ, 0 ≤ clampLower y := fun y => le_max_left _ _
  refine ⟨hO _ (hOr x).1 (hOr x).2, hL _ (hLr x), hO x, hL x, fun g env => ?_⟩
  obtain ⟨e1, e2, e3, e4, e5⟩ := sample_values g env
  rw [e1, e2, e3, e4, e5]
  exact ⟨hL _ (hLr _), hL _ (hLr _), hL _ (hLr _), hO _ (hOr _).1 (hOr _).2,
    hO _ (hOr _).1 (hOr _).2⟩

/-! ## The scheduler -/

theorem reachable_apply {s : State} (a : Action) (hs : Reachable s) (ha : Action.enabled s a) :
    Reachable (Action.apply s a) := by
  cases a with
  | tick env => exact Reachable.tick env hs ha.1 ha.2
  | emergency user env => exact Reachable.emergency user env hs
  | toggle => exact Reachable.toggle hs

theorem toggleSimulation_isSimulating (s : State) :
    (toggleSimulation s).isSimulating = !s.isSimulating := rfl

theorem staysStopped_head {s : State} {as : List Action} (h : StaysStopped s as) :
    s.isSimulating = false := by
  cases as with
  | nil => exact h
  | cons a as => exact h.1

theorem staysStopped_emergency {s : State} {a : Action} {as : List Action}
    (h : StaysStopped s (a :: as)) : ∃ user env, a = Action.emergency user env := by
  obtain ⟨h0, hen, hrest⟩ := h
  have h1 := staysStopped_head hrest
  cases a with
  | tick env =>
    have : s.isSimulating = true := hen.1
    rw [h0] at this
    exact absurd this (by decide)
  | emergency user env => exact ⟨user, env, rfl⟩
  | toggle =>
    have h2 : (!s.isSimulating) = false := h1
    rw [h0] at h2
    exact absurd h2 (by decide)

/-- C17: no tick fires while stopped. A tick is enabled only in a state with
`isSimulating` true; so along any sequence of enabled actions during which
`isSimulating` stays false, every action is a call of `handleEmergencyAlert`
(the only way the alert log changes) and the readings, verdicts and
prediction at the end are those at the start. -/
theorem no_tick_while_stopped (s : State) (as : List Action) (h : StaysStopped s as) :
    (∀ env, ¬ Action.enabled s (Action.tick env)) ∧
    (∀ a ∈ as, ∃ user env, a = Action.emergency user env) ∧
    (run s as).gasLevels = s.gasLevels ∧
    (run s as).predictions = s.predictions ∧
    (run s as).isSimulating = false := by
  refine ⟨fun env he => ?_, ?_⟩
  · have h1 : s.isSimulating = true := he.1
    rw [staysStopped_head h] at h1
    exact absurd h1 (by decide)
  · induction as generalizing s with
    | nil => exact ⟨fun a ha => absurd ha (List.not_mem_nil a), rfl, rfl, h⟩
    | cons a as ih =>
      obtain ⟨user, env, rfl⟩ := staysStopped_emergency h
      obtain ⟨i1, i2, i3, i4⟩ := ih _ h.2.2
      refine ⟨fun b hb => ?_, ?_, ?_, ?_⟩
      · rcases List.mem_cons.mp hb with rfl | hb
        · exact ⟨user, env, rfl⟩
        · exact i1 b hb
      · exact i2
      · exact i3
      · exact i4

theorem no_tick_while_stopped_witness :
    StaysStopped initialState
      [Action.emergency { name := "Alice" } midEnv, Action.emergency { name := "Bob" } midEnv] ∧
    (run initialState [Action.emergency { name := "Alice" } midEnv,
      Action.emergency { name := "Bob" } midEnv]).alerts.length = 2 ∧
    (run initialState [Action.emergency { name := "Alice" } midEnv,
      Action.emergency { name := "Bob" } midEnv]).gasLevels = initialState.gasLevels ∧
    (run initialState [Action.emergency { name := "Alice" } midEnv,
      Action.emergency { name := "Bob" } midEnv]).predictions = initialState.predictions := by
  have hs : StaysStopped initialState
      [Action.emergency { name := "Alice" } midEnv, Action.emergency { name := "Bob" } midEnv] :=
    ⟨rfl, trivial, rfl, trivial, rfl⟩
  have h := no_tick_while_stopped initialState _ hs
  exact ⟨hs, rfl, h.2.2.1, h.2.2.2.1⟩

/-- C18, as stated, fails: the only scheduler control is `toggleSimulation`,
and invoked on a running engine it stops it, invoked on a stopped engine it
starts it. -/
theorem toggleSimulation_not_noop :
    runningState.isSimulating = true ∧ (toggleSimulation runningState).isSimulating = false ∧
    initialState.isSimulating = false ∧ (toggleSimulation initialState).isSimulating = true :=
  ⟨rfl, rfl, rfl, rfl⟩

/-- C18, amended: the one scheduler control, `toggleSimulation`, flips
`isSimulating` in every state; its button reads 'Start Simulation' exactly
when the engine is stopped and 'Stop Simulation' exactly when it is running,
so it acts as a start only on a stopped engine and as a stop only on a
running one. -/
theorem toggleSimulation_flips (s : State) :
    (toggleSimulation s).isSimulating = (!s.isSimulating) ∧
    (controlLabel s = "Start Simulation" ↔ s.isSimulating = false) ∧
    (controlLabel s = "Stop Simulation" ↔ s.isSimulating = true) := by
  refine ⟨rfl, ?_, ?_⟩ <;> unfold controlLabel <;> cases s.isSimulating <;> decide

/-- C19: the scheduler state is the boolean `isSimulating`; the control moves
Stopped to Running and Running to Stopped; applied twice to a running engine
it gives a running engine, in which a tick is enabled again, with the
readings, the prediction and the alert log unchanged. -/
theorem toggleSimulation_twice (s : State) :
    (s.isSimulating = false ∨ s.isSimulating = true) ∧
    (s.isSimulating = false → (toggleSimulation s).isSimulating = true) ∧
    (s.isSimulating = true → (toggleSimulation s).isSimulating = false) ∧
    (s.isSimulating = true →
      (toggleSimulation (toggleSimulation s)).isSimulating = true ∧
      (∀ env : Env, env.RandomInRange →
        Action.enabled (toggleSimulation (toggleSimulation s)) (Action.tick env))) ∧
    (toggleSimulation (toggleSimulation s)).gasLevels = s.gasLevels ∧
    (toggleSimulation (toggleSimulation s)).predictions = s.predictions ∧
    (toggleSimulation (toggleSimulation s)).alerts = s.alerts := by
  have h2 : (toggleSimulation (toggleSimulation s)).isSimulating = s.isSimulating := by
    rw [toggleSimulation_isSimulating, toggleSimulation_isSimulating, Bool.not_not]
  refine ⟨?_, fun h => ?_, fun h => ?_, fun h => ⟨?_, fun env he => ⟨?_, he⟩⟩, rfl, rfl, rfl⟩
  · cases s.isSimulating
    · exact Or.inl rfl
    · exact Or.inr rfl
  · rw [toggleSimulation_isSimulating, h]; rfl
  · rw [toggleSimulation_isSimulating, h]; rfl
  · rw [h2, h]
  · rw [h2, h]

/-! ## Thresholds -/

theorem reachable_configured {s : State} (h : Reachable s) : Configured s.gasLevels := by
  induction h with
  | init => exact configured_initial
  | tick env _ _ _ ih => exact configured_sample env ih
  | emergency user env _ ih => exact ih
  | toggle _ ih => exact ih

/-- C20: no operation changes a threshold. After a tick (with any draws),
after `handleEmergencyAlert` and after `toggleSimulation` the five threshold
properties are what they were before, and in every reachable state they are
1.0, 50, 4.0, 19.5 and 23.5. -/
theorem thresholds_never_mutated :
    (∀ (s : State) (a : Action),
      thresholdFields (Action.apply s a).gasLevels = thresholdFields s.gasLevels) ∧
    (∀ (s : State) (env : Env),
      (tick s env).gasLevels.methane.threshold = s.gasLevels.methane.threshold ∧
      (tick s env).gasLevels.carbonMonoxide.threshold = s.gasLevels.carbonMonoxide.threshold ∧
      (tick s env).gasLevels.hydrogen.threshold = s.gasLevels.hydrogen.threshold ∧
      (tick s env).gasLevels.oxygenLow.thresholdLow = s.gasLevels.oxygenLow.thresholdLow ∧
      (tick s env).gasLevels.oxygenHigh.thresholdHigh = s.gasLevels.oxygenHigh.thresholdHigh) ∧
    (∀ s : State, Reachable s →
      thresholdFields s.gasLevels = [some 1.0, some 50, some 4.0, some 19.5, some 23.5]) := by
  refine ⟨fun s a => ?_, fun s env => ⟨rfl, rfl, rfl, rfl, rfl⟩, fun s hs => ?_⟩
  · cases a <;> rfl
  · obtain ⟨⟨h1, -, -⟩, ⟨h2, -, -⟩, ⟨h3, -, -⟩, ⟨-, h4, -⟩, ⟨-, -, h5⟩⟩ := reachable_configured hs
    unfold thresholdFields
    rw [h1, h2, h3, h4, h5]
    rfl

/-! ## Alert ids -/

theorem tick_quiet (s : State) (env : Env) (hq : ∀ k, env.random k ≤ 0.7) :
    (tick s env).alerts = s.alerts := by
  obtain ⟨hQ, -⟩ := foldl_alertCallback_quiet env hq (entries (sample s.gasLevels env))
    { randomCalls := 4, clockCalls := 0, queued := [], toasts := [] }
  show List.foldl _ s.alerts (tickEffects (sample s.gasLevels env) env).queued = s.alerts
  unfold tickEffects
  rw [hQ]
  rfl

theorem climbEnv_randomInRange : climbEnv.RandomInRange := by
  intro k
  simp only [climbEnv]
  split_ifs <;> norm_num

theorem climbEnv_quiet : ∀ k, climbEnv.random k ≤ 0.7 := by
  intro k
  simp only [climbEnv]
  split_ifs <;> norm_num

theorem sameMsEnv_randomInRange : sameMsEnv.RandomInRange := by
  intro k
  simp only [sameMsEnv]
  split_ifs <;> norm_num

theorem climb_spec (n : Nat) (hn : n ≤ 40) :
    Reachable (climb n) ∧ (climb n).isSimulating = true ∧ (climb n).alerts = [] ∧
    (climb n).gasLevels.methane.value = 0.06 * n ∧
    (climb n).gasLevels.carbonMonoxide.value = 0 ∧
    (climb n).gasLevels.hydrogen.value = 0 ∧
    (climb n).gasLevels.oxygenLow.value = 21 - 0.15 * n := by
  induction n with
  | zero =>
    refine ⟨Reachable.toggle Reachable.init, rfl, rfl, ?_, rfl, rfl, ?_⟩
    · show (0 : ℚ) = 0.06 * ((0 : ℕ) : ℚ)
      norm_num
    · show (21 : ℚ) = 21 - 0.15 * ((0 : ℕ) : ℚ)
      norm_num
  | succ n ih =>
    obtain ⟨hR, hS, hA, hM, hC, hH, hO⟩ := ih (by omega)
    obtain ⟨e1, e2, e3, e4, -⟩ := sample_values (climb n).gasLevels climbEnv
    have hn' : ((n : ℕ) : ℚ) ≤ 39 := by exact_mod_cast (by omega : n ≤ 39)
    have hn0 : (0 : ℚ) ≤ ((n : ℕ) : ℚ) := Nat.cast_nonneg n
    refine ⟨Reachable.tick climbEnv hR hS climbEnv_randomInRange, hS, ?_, ?_, ?_, ?_, ?_⟩
    · show (tick (climb n) climbEnv).alerts = []
      rw [tick_quiet _ _ climbEnv_quiet, hA]
    · show (sample (climb n).gasLevels climbEnv).methane.value = _
      rw [e1, hM]
      have hd : methaneDelta climbEnv = 0.06 := by norm_num [methaneDelta, climbEnv]
      rw [hd, clampLower, max_eq_right (by norm_num; linarith)]
      push_cast
      ring
    · show (sample (climb n).gasLevels climbEnv).carbonMonoxide.value = _
      rw [e2, hC]
      norm_num [coDelta, climbEnv, clampLower]
    · show (sample (climb n).gasLevels climbEnv).hydrogen.value = _
      rw [e3, hH]
      norm_num [h2Delta, climbEnv, clampLower]
    · show (sample (climb n).gasLevels climbEnv).oxygenLow.value = _
      rw [e4, hO]
      have hd : o2Delta climbEnv = -0.15 := by norm_num [o2Delta, climbEnv]
      rw [hd, clampOxygen, min_eq_right (by norm_num; linarith),
        max_eq_right (by norm_num; linarith)]
      push_cast
      ring

theorem tickEffects_methane_oxygenLow (g : GasLevels) (env : Env)
    (hm : g.methane.safe = false) (hc : g.carbonMonoxide.safe = true)
    (hh : g.hydrogen.safe = true) (hl : g.oxygenLow.safe = false)
    (hhi : g.oxygenHigh.safe = true) (h4 : env.random 4 > 0.7) (h5 : env.random 5 > 0.7) :
    (tickEffects g env).queued =
      [newTickAlert "methane" g.methane (env.now 0) (env.now 1),
       newTickAlert "oxygenLow" g.oxygenLow (env.now 2) (env.now 3)] := by
  simp only [tickEffects, entries, List.foldl_cons, List.foldl_nil, alertCallback, hm, hc, hh, hl,
    hhi, Bool.false_eq_true, if_false, if_true, h4, h5, List.nil_append, List.cons_append]

theorem duplicateIdState_flags :
    duplicateIdState.gasLevels.methane.safe = false ∧
    duplicateIdState.gasLevels.carbonMonoxide.safe = true ∧
    duplicateIdState.gasLevels.hydrogen.safe = true ∧
    duplicateIdState.gasLevels.oxygenLow.safe = false ∧
    duplicateIdState.gasLevels.oxygenHigh.safe = true := by
  obtain ⟨hR, -, -, hM, hC, hH, hO⟩ := climb_spec 17 (by norm_num)
  obtain ⟨⟨h1, -, -⟩, ⟨h2, -, -⟩, ⟨h3, -, -⟩, ⟨-, h4, -⟩, ⟨-, -, h5⟩⟩ := reachable_configured hR
  have t1 : (climb 17).gasLevels.methane.threshold = some 1.0 := h1
  have t2 : (climb 17).gasLevels.carbonMonoxide.threshold = some 50 := h2
  have t3 : (climb 17).gasLevels.hydrogen.threshold = some 4.0 := h3
  have t4 : (climb 17).gasLevels.oxygenLow.thresholdLow = some 19.5 := h4
  have t5 : (climb 17).gasLevels.oxygenHigh.thresholdHigh = some 23.5 := h5
  obtain ⟨e1, e2, e3, e4, e5⟩ := sample_values (climb 17).gasLevels sameMsEnv
  unfold duplicateIdState
  rw [tick_gasLevels, sample_methane_safe, sample_carbonMonoxide_safe, sample_hydrogen_safe,
    sample_oxygenLow_safe, sample_oxygenHigh_safe, e1, e2, e3, e4, e5, t1, t2, t3, t4, t5,
    hM, hC, hH, hO]
  norm_num [methaneDelta, coDelta, h2Delta, o2Delta, sameMsEnv, clampLower, clampOxygen,
    jsLt, jsGt]

/-- C12 fails on the code: after starting the simulation, 17 quiet ticks and
one tick in which methane and the lower oxygen bound both fire within the
same millisecond, the reachable alert log holds two different alerts, the
`oxygenLow` one created after the `methane` one, with the same id `1000`. -/
theorem reachable_duplicate_alert_ids :
    Reachable duplicateIdState ∧
    duplicateIdState.alerts =
      [newTickAlert "oxygenLow" duplicateIdState.gasLevels.oxygenLow 1000 1000,
       newTickAlert "methane" duplicateIdState.gasLevels.methane 1000 1000] ∧
    duplicateIdState.alerts.map (fun a => a.id) = [1000, 1000] ∧
    duplicateIdState.alerts.map (fun a => a.type) = ["oxygenLow", "methane"] := by
  obtain ⟨hR, hS, hA, -⟩ := climb_spec 17 (by norm_num)
  obtain ⟨f1, f2, f3, f4, f5⟩ := duplicateIdState_flags
  have hq := tickEffects_methane_oxygenLow duplicateIdState.gasLevels sameMsEnv f1 f2 f3 f4 f5
    (by norm_num [sameMsEnv]) (by norm_num [sameMsEnv])
  have hal : duplicateIdState.alerts =
      [newTickAlert "oxygenLow" duplicateIdState.gasLevels.oxygenLow 1000 1000,
       newTickAlert "methane" duplicateIdState.gasLevels.methane 1000 1000] := by
    show List.foldl _ (climb 17).alerts
      (tickEffects duplicateIdState.gasLevels sameMsEnv).queued = _
    rw [hq, hA]
    rfl
  refine ⟨Reachable.tick sameMsEnv hR hS sameMsEnv_randomInRange, hal, ?_, ?_⟩
  · rw [hal]; rfl
  · rw [hal]; rfl

/-! ## Frame of the emergency button -/

/-- C28: `handleEmergencyAlert` changes only the alert log and the sink: the
readings, verdicts and thresholds (`gasLevels`), the current prediction and
the running flag are the same after the call, so the risk level on display
is neither raised nor lowered. -/
theorem handleEmergencyAlert_frame (s : State) (user : User) (env : Env) :
    (handleEmergencyAlert s user env).gasLevels = s.gasLevels ∧
    (handleEmergencyAlert s user env).predictions = s.predictions ∧
    (handleEmergencyAlert s user env).isSimulating = s.isSimulating ∧
    thresholdFields (handleEmergencyAlert s user env).gasLevels = thresholdFields s.gasLevels ∧
    safeFlags (handleEmergencyAlert s user env).gasLevels = safeFlags s.gasLevels ∧
    (handleEmergencyAlert s user env).predictions.riskLevel = s.predictions.riskLevel :=
  ⟨rfl, rfl, rfl, rfl, rfl, rfl⟩

/-! ## Consistency of the stored verdicts -/

/-- C26: in every reachable state each stored `safe` flag is the comparison
of the stored value with the stored threshold: below 1.0 for methane, below
50 for carbonMonoxide, below 4.0 for hydrogen, above 19.5 for oxygenLow and
below 23.5 for oxygenHigh. -/
theorem reachable_flags_consistent (s : State) (h : Reachable s) :
    s.gasLevels.methane.safe = decide (s.gasLevels.methane.value < 1.0) ∧
    s.gasLevels.carbonMonoxide.safe = decide (s.gasLevels.carbonMonoxide.value < 50) ∧
    s.gasLevels.hydrogen.safe = decide (s.gasLevels.hydrogen.value < 4.0) ∧
    s.gasLevels.oxygenLow.safe = decide (s.gasLevels.oxygenLow.value > 19.5) ∧
    s.gasLevels.oxygenHigh.safe = decide (s.gasLevels.oxygenHigh.value < 23.5) := by
  induction h with
  | init => norm_num [initialState, initialGasLevels]
  | @tick s env hs _ _ _ =>
    obtain ⟨⟨h1, -, -⟩, ⟨h2, -, -⟩, ⟨h3, -, -⟩, ⟨-, h4, -⟩, ⟨-, -, h5⟩⟩ := reachable_configured hs
    have t1 : s.gasLevels.methane.threshold = some 1.0 := h1
    have t2 : s.gasLevels.carbonMonoxide.threshold = some 50 := h2
    have t3 : s.gasLevels.hydrogen.threshold = some 4.0 := h3
    have t4 : s.gasLevels.oxygenLow.thresholdLow = some 19.5 := h4
    have t5 : s.gasLevels.oxygenHigh.thresholdHigh = some 23.5 := h5
    rw [tick_gasLevels, sample_methane_safe, sample_carbonMonoxide_safe, sample_hydrogen_safe,
      sample_oxygenLow_safe, sample_oxygenHigh_safe, t1, t2, t3, t4, t5]
    exact ⟨rfl, rfl, rfl, rfl, rfl⟩
  | emergency user env _ ih => exact ih
  | toggle _ ih => exact ih

theorem reachable_flags_consistent_witness :
    Reachable (tick (toggleSimulation initialState) lowEnv) ∧
    (tick (toggleSimulation initialState) lowEnv).gasLevels.oxygenLow.value = 20.85 ∧
    (tick (toggleSimulation initialState) lowEnv).gasLevels.oxygenLow.safe = true := by
  have hR : Reachable (tick (toggleSimulation initialState) lowEnv) :=
    Reachable.tick lowEnv (Reachable.toggle Reachable.init) rfl lowEnv_randomInRange
  have hv : (tick (toggleSimulation initialState) lowEnv).gasLevels.oxygenLow.value = 20.85 := by
    norm_num [tick, sample, toggleSimulation, initialState, initialGasLevels, lowEnv]
  refine ⟨hR, hv, ?_⟩
  rw [(reachable_flags_consistent _ hR).2.2.2.1, hv]
  norm_num

/-! ## Monotonicity of the risk level -/

theorem riskRank_updatePredictions (g : GasLevels) :
    riskRank (updatePredictions g).riskLevel = min (unsafeCount g) 2 := by
  unfold updatePredictions
  by_cases h1 : unsafeCount g = 1
  · simp [h1, riskRank]
  · by_cases h2 : unsafeCount g ≥ 2
    · simp [h1, h2, riskRank]
    · have h0 : unsafeCount g = 0 := by omega
      simp [h0, riskRank]

theorem unsafeCount_eq_zero_iff (g : GasLevels) :
    unsafeCount g = 0 ↔
      (g.methane.safe = true ∧ g.carbonMonoxide.safe = true ∧ g.hydrogen.safe = true ∧
        g.oxygenLow.safe = true ∧ g.oxygenHigh.safe = true) := by
  rw [unsafeCount_eq]
  cases g.methane.safe <;> cases g.carbonMonoxide.safe <;> cases g.hydrogen.safe <;>
    cases g.oxygenLow.safe <;> cases g.oxygenHigh.safe <;> simp

/-- C27: the risk level is monotone in the set of unsafe verdicts: when every
entry unsafe in `g` is unsafe in `g'`, the risk level of `g'` is at least that
of `g` in the order Low, Medium, High; and the risk level is Low exactly when
every entry is safe. -/
theorem riskLevel_monotone (g g' : GasLevels)
    (h : (g.methane.safe = false → g'.methane.safe = false) ∧
      (g.carbonMonoxide.safe = false → g'.carbonMonoxide.safe = false) ∧
      (g.hydrogen.safe = false → g'.hydrogen.safe = false) ∧
      (g.oxygenLow.safe = false → g'.oxygenLow.safe = false) ∧
      (g.oxygenHigh.safe = false → g'.oxygenHigh.safe = false)) :
    riskRank (updatePredictions g).riskLevel ≤ riskRank (updatePredictions g').riskLevel ∧
    ((updatePredictions g).riskLevel = "Low" ↔
      (g.methane.safe = true ∧ g.carbonMonoxide.safe = true ∧ g.hydrogen.safe = true ∧
        g.oxygenLow.safe = true ∧ g.oxygenHigh.safe = true)) := by
  constructor
  · rw [riskRank_updatePredictions, riskRank_updatePredictions]
    have hle : unsafeCount g ≤ unsafeCount g' := by
      rw [unsafeCount_eq, unsafeCount_eq]
      obtain ⟨h1, h2, h3, h4, h5⟩ := h
      have hf : ∀ a a' : Bool, (a = false → a' = false) →
          (if a = true then 0 else 1) ≤ (if a' = true then 0 else 1) := by
        intro a a'
        cases a <;> cases a' <;> simp
      exact Nat.add_le_add (Nat.add_le_add (Nat.add_le_add (Nat.add_le_add
        (hf _ _ h1) (hf _ _ h2)) (hf _ _ h3)) (hf _ _ h4)) (hf _ _ h5)
    exact min_le_min hle (le_refl 2)
  · rw [updatePredictions_low_iff, unsafeCount_eq_zero_iff]

theorem riskLevel_monotone_witness :
    (updatePredictions hydrogenUnsafe).riskLevel = "Medium" ∧
    (updatePredictions hydrogenAndCoUnsafe).riskLevel = "High" ∧
    riskRank (updatePredictions hydrogenUnsafe).riskLevel ≤
      riskRank (updatePredictions hydrogenAndCoUnsafe).riskLevel :=
  ⟨by decide, by decide,
    (riskLevel_monotone hydrogenUnsafe hydrogenAndCoUnsafe
      ⟨fun h => absurd h (by decide), fun h => absurd h (by decide), fun _ => rfl,
        fun h => absurd h (by decide), fun h => absurd h (by decide)⟩).1⟩

/-! ## The two oxygen entries on reachable states -/

theorem unsafeCount_physical_of_some_safe (g : GasLevels)
    (h : g.oxygenLow.safe = true ∨ g.oxygenHigh.safe = true) :
    unsafeCount g = physicalUnsafeCount g ∧ unsafeCount g ≤ 4 := by
  rw [unsafeCount_eq]
  unfold physicalUnsafeCount
  rcases h with h | h <;> rw [h] <;>
    cases g.methane.safe <;> cases g.carbonMonoxide.safe <;> cases g.hydrogen.safe <;>
    cases g.oxygenLow.safe <;> cases g.oxygenHigh.safe <;> simp

theorem queued_length_foldl (env : Env) (l : List (String × GasEntry)) (acc : Effects) :
    (l.foldl (alertCallback env) acc).queued.length ≤
      acc.queued.length + (l.filter (fun e => !e.2.safe)).length := by
  induction l generalizing acc with
  | nil => simp
  | cons e l ih =>
    rw [List.foldl_cons]
    by_cases hs : e.2.safe = true
    · rw [alertCallback_safe env acc e hs]
      have hf : (e :: l).filter (fun e => !e.2.safe) = l.filter (fun e => !e.2.safe) := by
        simp [List.filter, hs]
      rw [hf]
      exact ih acc
    · have hs' : e.2.safe = false := by simpa using hs
      have hf : ((e :: l).filter (fun e => !e.2.safe)).length =
          (l.filter (fun e => !e.2.safe)).length + 1 := by
        simp [List.filter, hs']
      rw [hf]
      by_cases hr : env.random acc.randomCalls > 0.7
      · have h1 := ih (alertCallback env acc e)
        rw [(alertCallback_fire env acc e hs' hr).1, List.length_append] at h1
        simp only [List.length_singleton] at h1
        omega
      · have h1 := ih (alertCallback env acc e)
        rw [alertCallback_quiet env acc e hs' hr] at h1 ⊢
        simp only at h1
        omega

theorem tickEffects_queued_length_le (g : GasLevels) (env : Env) :
    (tickEffects g env).queued.length ≤ unsafeCount g := by
  have h := queued_length_foldl env (entries g)
    { randomCalls := 4, clockCalls := 0, queued := [], toasts := [] }
  have he : ((entries g).filter (fun e => !e.2.safe)).length = unsafeCount g := by
    rw [unsafeCount_eq]
    simp only [entries, List.filter_cons, List.filter_nil]
    cases g.methane.safe <;> cases g.carbonMonoxide.safe <;> cases g.hydrogen.safe <;>
      cases g.oxygenLow.safe <;> cases g.oxygenHigh.safe <;> rfl
  rw [he] at h
  simpa [tickEffects] using h

/-- C24: in every reachable state the two oxygen entries hold the same value
and at most one of them is unsafe; so the number of unsafe entries counted by
`updatePredictions` is the number of unsafe physical channels, and a tick
from such a state creates at most 4 alerts. -/
theorem reachable_oxygen_entries (s : State) (h : Reachable s) :
    s.gasLevels.oxygenLow.value = s.gasLevels.oxygenHigh.value ∧
    (s.gasLevels.oxygenLow.safe = true ∨ s.gasLevels.oxygenHigh.safe = true) ∧
    unsafeCount s.gasLevels = physicalUnsafeCount s.gasLevels ∧
    (∀ env : Env, (tickEffects (tick s env).gasLevels env).queued.length ≤ 4) := by
  have hinv : s.gasLevels.oxygenLow.value = s.gasLevels.oxygenHigh.value ∧
      (s.gasLevels.oxygenLow.safe = true ∨ s.gasLevels.oxygenHigh.safe = true) := by
    induction h with
    | init => exact ⟨rfl, Or.inl rfl⟩
    | @tick s env hs _ _ _ =>
      exact ⟨rfl, sample_oxygen_some_safe s.gasLevels env (reachable_configured hs)⟩
    | emergency user env _ ih => exact ih
    | toggle _ ih => exact ih
  refine ⟨hinv.1, hinv.2, (unsafeCount_physical_of_some_safe _ hinv.2).1, fun env => ?_⟩
  have h1 := sample_oxygen_some_safe s.gasLevels env (reachable_configured h)
  exact le_trans (tickEffects_queued_length_le _ env)
    (unsafeCount_physical_of_some_safe (tick s env).gasLevels h1).2

theorem reachable_oxygen_entries_witness :
    Reachable duplicateIdState ∧
    duplicateIdState.gasLevels.oxygenLow.safe = false ∧
    duplicateIdState.gasLevels.oxygenHigh.safe = true ∧
    unsafeCount duplicateIdState.gasLevels = physicalUnsafeCount duplicateIdState.gasLevels := by
  have hR : Reachable duplicateIdState :=
    Reachable.tick sameMsEnv (climb_spec 17 (by norm_num)).1 (climb_spec 17 (by norm_num)).2.1
      sameMsEnv_randomInRange
  exact ⟨hR, duplicateIdState_flags.2.2.2.1, duplicateIdState_flags.2.2.2.2,
    (reachable_oxygen_entries duplicateIdState hR).2.2.1⟩

/-! ## Severity of oxygen alerts -/

/-- C25: an oxygen alert created by a tick is never of high severity. The
new oxygen value lies in `[15, 25]`, below `1.5 × 19.5 = 29.25` and
`1.5 × 23.5 = 35.25`, so every created alert of type `oxygenLow` or
`oxygenHigh` is `'medium'`, every `'high'` alert belongs to methane,
carbonMonoxide or hydrogen, and the sink calls of the tick are the messages
of those. -/
theorem tick_oxygen_alert_medium (s : State) (env : Env) (h : Configured s.gasLevels) :
    (∀ a ∈ (tickEffects (tick s env).gasLevels env).queued,
      (a.type = "oxygenLow" ∨ a.type = "oxygenHigh") → a.severity = "medium") ∧
    (∀ a ∈ (tickEffects (tick s env).gasLevels env).queued, a.severity = "high" →
      (a.type = "methane" ∨ a.type = "carbonMonoxide" ∨ a.type = "hydrogen")) ∧
    (tick s env).toasts = s.toasts ++
      ((tickEffects (tick s env).gasLevels env).queued.filter
        (fun a => a.severity = "high" ∧
          (a.type = "methane" ∨ a.type = "carbonMonoxide" ∨ a.type = "hydrogen"))).map
        (fun a => { kind := "error", message := a.message }) := by
  have hc : Configured (tick s env).gasLevels := configured_sample env h
  obtain ⟨-, -, -, ⟨hl0, hl, hl1⟩, ⟨hh0, -, hh1⟩⟩ := hc
  have hv : (tick s env).gasLevels.oxygenLow.value ≤ 25 :=
    max_le (by norm_num) (min_le_left _ _)
  have hv' : (tick s env).gasLevels.oxygenHigh.value ≤ 25 := hv
  have key : ∀ a ∈ (tickEffects (tick s env).gasLevels env).queued,
      (a.type = "methane" ∨ a.type = "carbonMonoxide" ∨ a.type = "hydrogen") ∨
      a.severity = "medium" := by
    intro a ha
    rcases mem_queued_foldl env _ _ a ha with h0 | ⟨e, he, -, ht, hsev⟩
    · exact absurd h0 (List.not_mem_nil a)
    · simp only [entries, List.mem_cons, List.mem_singleton, List.not_mem_nil, or_false] at he
      rcases he with rfl | rfl | rfl | rfl | rfl
      · exact Or.inl (Or.inl ht)
      · exact Or.inl (Or.inr (Or.inl ht))
      · exact Or.inl (Or.inr (Or.inr ht))
      · right
        rw [hsev, alertSeverity_of_thresholdLow _ 19.5 hl0 hl1 hl, if_neg]
        intro hgt
        have : (tick s env).gasLevels.oxygenLow.value > 1.5 * 19.5 := hgt
        norm_num at this
        linarith
      · right
        rw [hsev, alertSeverity_of_thresholdHigh _ 23.5 (by norm_num) hh0 hh1, if_neg]
        intro hgt
        have : (tick s env).gasLevels.oxygenHigh.value > 1.5 * 23.5 := hgt
        norm_num at this
        linarith
  have hmed : ∀ a ∈ (tickEffects (tick s env).gasLevels env).queued,
      (a.type = "oxygenLow" ∨ a.type = "oxygenHigh") → a.severity = "medium" := by
    intro a ha ht
    rcases key a ha with (h1 | h1 | h1) | h1
    · rcases ht with ht | ht <;> rw [ht] at h1 <;> exact absurd h1 (by decide)
    · rcases ht with ht | ht <;> rw [ht] at h1 <;> exact absurd h1 (by decide)
    · rcases ht with ht | ht <;> rw [ht] at h1 <;> exact absurd h1 (by decide)
    · exact h1
  have hhigh : ∀ a ∈ (tickEffects (tick s env).gasLevels env).queued, a.severity = "high" →
      (a.type = "methane" ∨ a.type = "carbonMonoxide" ∨ a.type = "hydrogen") := by
    intro a ha hs
    rcases key a ha with h1 | h1
    · exact h1
    · rw [hs] at h1
      exact absurd h1 (by decide)
  refine ⟨hmed, hhigh, ?_⟩
  obtain ⟨new, hq, ht⟩ := foldl_alertCallback_toasts env (entries (sample s.gasLevels env))
    { randomCalls := 4, clockCalls := 0, queued := [], toasts := [] }
  have hfil : (tickEffects (tick s env).gasLevels env).queued.filter
        (fun a => a.severity = "high" ∧
          (a.type = "methane" ∨ a.type = "carbonMonoxide" ∨ a.type = "hydrogen")) =
      (tickEffects (tick s env).gasLevels env).queued.filter (fun a => a.severity = "high") := by
    apply List.filter_congr
    intro a ha
    by_cases hs : a.severity = "high"
    · simp [hs, hhigh a ha hs]
    · simp [hs]
  rw [hfil]
  show s.toasts ++ (tickEffects (sample s.gasLevels env) env).toasts = _
  rw [tick_gasLevels]
  unfold tickEffects
  rw [ht, hq]
  simp

theorem tick_oxygen_alert_medium_witness :
    Configured (climb 17).gasLevels ∧
    (∃ a ∈ (tickEffects (tick (climb 17) sameMsEnv).gasLevels sameMsEnv).queued,
      a.type = "oxygenLow" ∧ a.severity = "medium") := by
  have hc : Configured (climb 17).gasLevels :=
    reachable_configured (climb_spec 17 (by norm_num)).1
  obtain ⟨f1, f2, f3, f4, f5⟩ := duplicateIdState_flags
  have hq := tickEffects_methane_oxygenLow duplicateIdState.gasLevels sameMsEnv f1 f2 f3 f4 f5
    (by norm_num [sameMsEnv]) (by norm_num [sameMsEnv])
  have hmem : newTickAlert "oxygenLow" duplicateIdState.gasLevels.oxygenLow
      (sameMsEnv.now 2) (sameMsEnv.now 3) ∈
      (tickEffects (tick (climb 17) sameMsEnv).gasLevels sameMsEnv).queued := by
    show _ ∈ (tickEffects duplicateIdState.gasLevels sameMsEnv).queued
    rw [hq]
    exact List.mem_cons_of_mem _ (List.mem_cons_self _ _)
  exact ⟨hc, _, hmem, rfl,
    (tick_oxygen_alert_medium (climb 17) sameMsEnv hc).1 _ hmem (Or.inl rfl)⟩

/-! ## Order of alerting and aggregation -/

/-- C23: running the tick in the spec's order (sample, evaluate, aggregate,
alert) gives the same state as the code's order (sample, evaluate, alert,
aggregate), which is `tick`: same readings, verdicts, prediction, alert log
and sink calls, for every previous state and all draws. -/
theorem tickSpecOrder_eq_tick (s : State) (env : Env) :
    tickSpecOrder s env = tick s env ∧ tickCodeOrder s env = tick s env ∧
    (tickSpecOrder s env).gasLevels = (tickCodeOrder s env).gasLevels ∧
    (tickSpecOrder s env).predictions = (tickCodeOrder s env).predictions ∧
    (tickSpecOrder s env).alerts = (tickCodeOrder s env).alerts ∧
    (tickSpecOrder s env).toasts = (tickCodeOrder s env).toasts :=
  ⟨rfl, rfl, rfl, rfl, rfl, rfl⟩

end GasDetection

namespace Binary64

/-! ## Rounding to the nearest double -/

theorem roundHalfEven_floor_le (t : ℚ) :
    Int.floor t ≤ roundHalfEven t ∧ roundHalfEven t ≤ Int.floor t + 1 := by
  unfold roundHalfEven
  split_ifs <;> constructor <;> omega

theorem abs_roundHalfEven_sub_le (t : ℚ) : |(roundHalfEven t : ℚ) - t| ≤ 1 / 2 := by
  have h1 : (Int.floor t : ℚ) ≤ t := Int.floor_le t
  have h2 : t < Int.floor t + 1 := Int.lt_floor_add_one t
  rw [abs_le]
  unfold roundHalfEven
  split_ifs with a b c <;> push_cast <;> constructor <;> linarith

theorem roundHalfEven_mono {t u : ℚ} (h : t ≤ u) : roundHalfEven t ≤ roundHalfEven u := by
  have hfg : Int.floor t ≤ Int.floor u := Int.floor_mono h
  rcases lt_or_eq_of_le hfg with hlt | heq
  · have h1 := (roundHalfEven_floor_le t).2
    have h2 := (roundHalfEven_floor_le u).1
    omega
  · unfold roundHalfEven
    rw [← heq]
    split_ifs <;> first | omega | (exfalso; linarith)

theorem roundHalfEven_eq_of_near (t : ℚ) (m : ℤ) (h : |t - m| < 1 / 2) :
    roundHalfEven t = m := by
  have h1 := abs_roundHalfEven_sub_le t
  rw [abs_lt] at h
  rw [abs_le] at h1
  have h2 : ((roundHalfEven t - m : ℤ) : ℚ) < 1 := by push_cast; linarith
  have h3 : (-1 : ℚ) < ((roundHalfEven t - m : ℤ) : ℚ) := by push_cast; linarith
  have h4 : roundHalfEven t - m < 1 := by exact_mod_cast h2
  have h5 : -1 < roundHalfEven t - m := by exact_mod_cast h3
  omega

theorem roundHalfEven_intCast (m : ℤ) : roundHalfEven (m : ℚ) = m :=
  roundHalfEven_eq_of_near _ m (by simp)

theorem zpow_split (e : ℤ) (k : ℕ) : (2 : ℚ) ^ e = (2 : ℚ) ^ (e - k) * (2 : ℚ) ^ k := by
  rw [← zpow_natCast, ← zpow_add₀ (two_ne_zero)]
  congr 1
  ring

theorem log_spec {x : ℚ} (hx : 0 < x) :
    (2 : ℚ) ^ Int.log 2 x ≤ x ∧ x < (2 : ℚ) ^ (Int.log 2 x + 1) := by
  have h1 := Int.zpow_log_le_self (b := 2) (by norm_num) hx
  have h2 := Int.lt_zpow_succ_log_self (b := 2) (by norm_num) x
  exact ⟨by simpa using h1, by simpa using h2⟩

theorem log_eq {x : ℚ} (hx : 0 < x) (e : ℤ) (h1 : (2 : ℚ) ^ e ≤ x) (h2 : x < (2 : ℚ) ^ (e + 1)) :
    Int.log 2 x = e := by
  have a : e ≤ Int.log 2 x :=
    (Int.zpow_le_iff_le_log (b := 2) (by norm_num) hx).mp (by simpa using h1)
  have b : Int.log 2 x < e + 1 :=
    (Int.lt_zpow_iff_log_lt (b := 2) (by norm_num) hx).mp (by simpa using h2)
  omega

theorem scaled_bounds {x : ℚ} (hx : 0 < x) :
    (2 : ℚ) ^ 52 ≤ x / (2 : ℚ) ^ (Int.log 2 x - 52) ∧
    x / (2 : ℚ) ^ (Int.log 2 x - 52) < (2 : ℚ) ^ 53 := by
  obtain ⟨h1, h2⟩ := log_spec hx
  have hq : (0 : ℚ) < (2 : ℚ) ^ (Int.log 2 x - 52) := zpow_pos (by norm_num) _
  have e1 := zpow_split (Int.log 2 x) 52
  have e2 := zpow_split (Int.log 2 x + 1) 53
  have e3 : Int.log 2 x + 1 - (53 : ℕ) = Int.log 2 x - (52 : ℕ) := by push_cast; ring
  rw [e3] at e2
  push_cast at e1 e2
  constructor
  · rw [le_div_iff₀ hq]
    linarith
  · rw [div_lt_iff₀ hq]
    linarith

theorem roundPos_bounds {x : ℚ} (hx : 0 < x) :
    (2 : ℚ) ^ Int.log 2 x ≤ roundPos x ∧ roundPos x ≤ (2 : ℚ) ^ (Int.log 2 x + 1) := by
  obtain ⟨h1, h2⟩ := scaled_bounds hx
  have hq : (0 : ℚ) < (2 : ℚ) ^ (Int.log 2 x - 52) := zpow_pos (by norm_num) _
  have e1 := zpow_split (Int.log 2 x) 52
  have e2 := zpow_split (Int.log 2 x + 1) 53
  have e3 : Int.log 2 x + 1 - (53 : ℕ) = Int.log 2 x - (52 : ℕ) := by push_cast; ring
  rw [e3] at e2
  push_cast at e1 e2
  have m1 : ((2 : ℤ) ^ 52) ≤ roundHalfEven (x / (2 : ℚ) ^ (Int.log 2 x - 52)) := by
    have := roundHalfEven_mono (t := (((2 : ℤ) ^ 52 : ℤ) : ℚ)) (by push_cast; exact h1)
    rwa [roundHalfEven_intCast] at this
  have m2 : roundHalfEven (x / (2 : ℚ) ^ (Int.log 2 x - 52)) ≤ ((2 : ℤ) ^ 53) := by
    have := roundHalfEven_mono (u := (((2 : ℤ) ^ 53 : ℤ) : ℚ)) (by push_cast; exact h2.le)
    rwa [roundHalfEven_intCast] at this
  have m1' : ((2 : ℚ) ^ 52) ≤ (roundHalfEven (x / (2 : ℚ) ^ (Int.log 2 x - 52)) : ℚ) := by
    exact_mod_cast m1
  have m2' : (roundHalfEven (x / (2 : ℚ) ^ (Int.log 2 x - 52)) : ℚ) ≤ ((2 : ℚ) ^ 53) := by
    exact_mod_cast m2
  unfold roundPos
  constructor
  · rw [e1, mul_comm ((2 : ℚ) ^ (Int.log 2 x - 52))]
    exact mul_le_mul_of_nonneg_right m1' hq.le
  · rw [e2, mul_comm ((2 : ℚ) ^ (Int.log 2 x - 52))]
    exact mul_le_mul_of_nonneg_right m2' hq.le

theorem roundPos_pos {x : ℚ} (hx : 0 < x) : 0 < roundPos x :=
  lt_of_lt_of_le (zpow_pos (by norm_num) _) (roundPos_bounds hx).1

theorem roundPos_mono {x y : ℚ} (hx : 0 < x) (h : x ≤ y) : roundPos x ≤ roundPos y := by
  have hy : 0 < y := lt_of_lt_of_le hx h
  have hlog : Int.log 2 x ≤ Int.log 2 y := Int.log_mono_right hx h
  rcases lt_or_eq_of_le hlog with hlt | heq
  · calc roundPos x ≤ (2 : ℚ) ^ (Int.log 2 x + 1) := (roundPos_bounds hx).2
      _ ≤ (2 : ℚ) ^ Int.log 2 y := zpow_le_zpow_right₀ (by norm_num) (by omega)
      _ ≤ roundPos y := (roundPos_bounds hy).1
  · unfold roundPos
    rw [heq]
    have hq : (0 : ℚ) < (2 : ℚ) ^ (Int.log 2 y - 52) := zpow_pos (by norm_num) _
    apply mul_le_mul_of_nonneg_right _ hq.le
    have : roundHalfEven (x / (2 : ℚ) ^ (Int.log 2 y - 52)) ≤
        roundHalfEven (y / (2 : ℚ) ^ (Int.log 2 y - 52)) :=
      roundHalfEven_mono (div_le_div_of_nonneg_right h hq.le)
    exact_mod_cast this

theorem abs_roundPos_sub_le {x : ℚ} (hx : 0 < x) : |roundPos x - x| ≤ x / 2 ^ 53 := by
  have hq : (0 : ℚ) < (2 : ℚ) ^ (Int.log 2 x - 52) := zpow_pos (by norm_num) _
  have h1 := abs_roundHalfEven_sub_le (x / (2 : ℚ) ^ (Int.log 2 x - 52))
  have e1 := zpow_split (Int.log 2 x) 52
  push_cast at e1
  have hx2 := (log_spec hx).1
  have key : roundPos x - x =
      ((roundHalfEven (x / (2 : ℚ) ^ (Int.log 2 x - 52)) : ℚ) -
        x / (2 : ℚ) ^ (Int.log 2 x - 52)) * (2 : ℚ) ^ (Int.log 2 x - 52) := by
    unfold roundPos
    field_simp
  rw [key, abs_mul, abs_of_pos hq]
  have h2 : |(roundHalfEven (x / (2 : ℚ) ^ (Int.log 2 x - 52)) : ℚ) -
      x / (2 : ℚ) ^ (Int.log 2 x - 52)| * (2 : ℚ) ^ (Int.log 2 x - 52) ≤
      1 / 2 * (2 : ℚ) ^ (Int.log 2 x - 52) := mul_le_mul_of_nonneg_right h1 hq.le
  have h3 : 1 / 2 * (2 : ℚ) ^ (Int.log 2 x - 52) ≤ x / 2 ^ 53 := by
    rw [le_div_iff₀ (by norm_num)]
    have : (2 : ℚ) ^ (Int.log 2 x - 52) * 2 ^ 52 ≤ x := by rw [← e1]; exact hx2
    norm_num at this ⊢
    linarith
  exact le_trans h2 h3

theorem roundPos_eq {x : ℚ} (hx : 0 < x) (e m : ℤ) (h1 : (2 : ℚ) ^ e ≤ x)
    (h2 : x < (2 : ℚ) ^ (e + 1)) (h3 : |x / (2 : ℚ) ^ (e - 52) - m| < 1 / 2) :
    roundPos x = m * (2 : ℚ) ^ (e - 52) := by
  unfold roundPos
  rw [log_eq hx e h1 h2, roundHalfEven_eq_of_near _ m h3]

theorem toDouble_of_pos {x : ℚ} (hx : 0 < x) : toDouble x = roundPos x := by
  unfold toDouble
  rw [if_pos hx]

theorem toDouble_of_neg {x : ℚ} (hx : x < 0) : toDouble x = -roundPos (-x) := by
  unfold toDouble
  rw [if_neg (not_lt.mpr hx.le), if_pos hx]

theorem toDouble_zero : toDouble 0 = 0 := by
  unfold toDouble
  simp

theorem toDouble_neg (x : ℚ) : toDouble (-x) = -toDouble x := by
  rcases lt_trichotomy x 0 with h | h | h
  · rw [toDouble_of_neg h, toDouble_of_pos (by linarith : 0 < -x), neg_neg]
  · rw [h, neg_zero, toDouble_zero, neg_zero]
  · rw [toDouble_of_pos h, toDouble_of_neg (by linarith : -x < 0), neg_neg]

theorem toDouble_pos {x : ℚ} (hx : 0 < x) : 0 < toDouble x := by
  rw [toDouble_of_pos hx]
  exact roundPos_pos hx

theorem toDouble_nonneg {x : ℚ} (hx : 0 ≤ x) : 0 ≤ toDouble x := by
  rcases lt_or_eq_of_le hx with h | h
  · exact (toDouble_pos h).le
  · rw [← h, toDouble_zero]

theorem toDouble_mono {x y : ℚ} (h : x ≤ y) : toDouble x ≤ toDouble y := by
  rcases lt_trichotomy y 0 with hy | hy | hy
  · have hx : x < 0 := lt_of_le_of_lt h hy
    rw [toDouble_of_neg hx, toDouble_of_neg hy]
    exact neg_le_neg (roundPos_mono (by linarith) (by linarith))
  · rw [hy, toDouble_zero]
    rw [hy] at h
    have := toDouble_nonneg (x := -x) (by linarith)
    rw [toDouble_neg] at this
    linarith
  · rcases lt_or_le 0 x with hx | hx
    · rw [toDouble_of_pos hx, toDouble_of_pos hy]
      exact roundPos_mono hx h
    · have h1 := toDouble_nonneg (x := -x) (by linarith)
      rw [toDouble_neg] at h1
      have h2 := toDouble_pos hy
      linarith

theorem abs_toDouble_sub_le (x : ℚ) : |toDouble x - x| ≤ |x| / 2 ^ 53 := by
  rcases lt_trichotomy x 0 with h | h | h
  · rw [toDouble_of_neg h, abs_of_neg h]
    have := abs_roundPos_sub_le (x := -x) (by linarith)
    have e : -roundPos (-x) - x = -(roundPos (-x) - -x) := by ring
    rw [e, abs_neg]
    exact this
  · rw [h, toDouble_zero]
    simp
  · rw [toDouble_of_pos h, abs_of_pos h]
    exact abs_roundPos_sub_le h

theorem toDouble_eq {x : ℚ} (hx : 0 < x) (e m : ℤ) (h1 : (2 : ℚ) ^ e ≤ x)
    (h2 : x < (2 : ℚ) ^ (e + 1)) (h3 : |x / (2 : ℚ) ^ (e - 52) - m| < 1 / 2) :
    toDouble x = m * (2 : ℚ) ^ (e - 52) := by
  rw [toDouble_of_pos hx, roundPos_eq hx e m h1 h2 h3]

/-! ## The doubles of some constants -/

theorem toDouble_one_half : toDouble (1 / 2) = 1 / 2 := by
  rw [toDouble_eq (by norm_num) (-1) 4503599627370496 (by norm_num) (by norm_num) (by norm_num [abs_lt])]
  norm_num

theorem toDouble_one : toDouble (1) = 1 := by
  rw [toDouble_eq (by norm_num) (0) 4503599627370496 (by norm_num) (by norm_num) (by norm_num [abs_lt])]
  norm_num

theorem toDouble_hundred : toDouble (100) = 100 := by
  rw [toDouble_eq (by norm_num) (6) 7036874417766400 (by norm_num) (by norm_num) (by norm_num [abs_lt])]
  norm_num

theorem toDouble_five_halves : toDouble (5 / 2) = 5 / 2 := by
  rw [toDouble_eq (by norm_num) (1) 5629499534213120 (by norm_num) (by norm_num) (by norm_num [abs_lt])]
  norm_num

theorem toDouble_three_tenths : toDouble (3 / 10) = 5404319552844595 / 18014398509481984 := by
  rw [toDouble_eq (by norm_num) (-2) 5404319552844595 (by norm_num) (by norm_num) (by norm_num [abs_lt])]
  norm_num

theorem toDouble_two_tenths : toDouble (1 / 5) = 3602879701896397 / 18014398509481984 := by
  rw [toDouble_eq (by norm_num) (-3) 7205759403792794 (by norm_num) (by norm_num) (by norm_num [abs_lt])]
  norm_num

theorem toDouble_fifteen_hundredths : toDouble (3 / 20) = 5404319552844595 / 36028797018963968 := by
  rw [toDouble_eq (by norm_num) (-3) 5404319552844595 (by norm_num) (by norm_num) (by norm_num [abs_lt])]
  norm_num

theorem toDouble_one_tenth : toDouble (1 / 10) = 3602879701896397 / 36028797018963968 := by
  rw [toDouble_eq (by norm_num) (-4) 7205759403792794 (by norm_num) (by norm_num) (by norm_num [abs_lt])]
  norm_num

theorem toDouble_half_three_tenths : toDouble (5404319552844595 / 36028797018963968) = 5404319552844595 / 36028797018963968 := by
  rw [toDouble_eq (by norm_num) (-3) 5404319552844595 (by norm_num) (by norm_num) (by norm_num [abs_lt])]
  norm_num

theorem toDouble_half_two_tenths : toDouble (3602879701896397 / 36028797018963968) = 3602879701896397 / 36028797018963968 := by
  rw [toDouble_eq (by norm_num) (-4) 7205759403792794 (by norm_num) (by norm_num) (by norm_num [abs_lt])]
  norm_num

theorem toDouble_methane_step : toDouble (30624477466119373 / 36028797018963968) = 7656119366529843 / 9007199254740992 := by
  rw [toDouble_eq (by norm_num) (-1) 7656119366529843 (by norm_num) (by norm_num) (by norm_num [abs_lt])]
  norm_num

theorem toDouble_upper_ratio : toDouble (8151 / 8192) = 8151 / 8192 := by
  rw [toDouble_eq (by norm_num) (-1) 8962119278002176 (by norm_num) (by norm_num) (by norm_num [abs_lt])]
  norm_num

theorem toDouble_upper_percent : toDouble (203775 / 2048) = 203775 / 2048 := by
  rw [toDouble_eq (by norm_num) (6) 7001655685939200 (by norm_num) (by norm_num) (by norm_num [abs_lt])]
  norm_num

theorem toDouble_ratio_199_200 : toDouble (199 / 200) = 8962163258467287 / 9007199254740992 := by
  rw [toDouble_eq (by norm_num) (-1) 8962163258467287 (by norm_num) (by norm_num) (by norm_num [abs_lt])]
  norm_num

theorem toDouble_percent_199_200 : toDouble (224054081461682175 / 2251799813685248) = 199 / 2 := by
  rw [toDouble_eq (by norm_num) (6) 7001690045677568 (by norm_num) (by norm_num) (by norm_num [abs_lt])]
  norm_num

theorem toDouble_ratio_23_40 : toDouble (23 / 40) = 2589569785738035 / 4503599627370496 := by
  rw [toDouble_eq (by norm_num) (-1) 5179139571476070 (by norm_num) (by norm_num) (by norm_num [abs_lt])]
  norm_num

theorem toDouble_percent_23_40 : toDouble (64739244643450875 / 1125899906842624) = 8092405580431359 / 140737488355328 := by
  rw [toDouble_eq (by norm_num) (5) 8092405580431359 (by norm_num) (by norm_num) (by norm_num [abs_lt])]
  norm_num

end Binary64

namespace GasDetection

/-! ## Size of a sampling step in binary64 -/

theorem abs_toDouble_scaled_le (r k B : ℚ) (hk : 0 ≤ k) (h0 : 0 ≤ r) (h1 : r < 1)
    (hB : Binary64.toDouble (k / 2) = B) :
    |Binary64.toDouble (Binary64.toDouble (r - 0.5) * k)| ≤ B := by
  have ha1 : Binary64.toDouble (r - 0.5) ≤ 1 / 2 := by
    have := Binary64.toDouble_mono (x := r - 0.5) (y := 1 / 2) (by norm_num; linarith)
    rwa [Binary64.toDouble_one_half] at this
  have ha2 : -(1 / 2) ≤ Binary64.toDouble (r - 0.5) := by
    have := Binary64.toDouble_mono (x := -(1 / 2)) (y := r - 0.5) (by norm_num; linarith)
    rwa [Binary64.toDouble_neg, Binary64.toDouble_one_half] at this
  rw [abs_le]
  constructor
  · have := Binary64.toDouble_mono (x := -(k / 2)) (y := Binary64.toDouble (r - 0.5) * k)
      (by nlinarith)
    rwa [Binary64.toDouble_neg, hB] at this
  · have := Binary64.toDouble_mono (x := Binary64.toDouble (r - 0.5) * k) (y := k / 2)
      (by nlinarith)
    rwa [hB] at this

theorem abs_clampLower_toDouble_sub_le (p d B : ℚ) (hp : 0 ≤ p) (hd : |d| ≤ B) :
    |max 0 (Binary64.toDouble (p + d)) - p| ≤ B + |p + d| / 2 ^ 53 := by
  have herr := Binary64.abs_toDouble_sub_le (p + d)
  have hE : 0 ≤ |p + d| / 2 ^ 53 := div_nonneg (abs_nonneg _) (by norm_num)
  rw [abs_le] at herr hd ⊢
  rcases max_cases 0 (Binary64.toDouble (p + d)) with ⟨h, h'⟩ | ⟨h, h'⟩ <;> rw [h] <;>
    constructor <;> linarith [herr.1, herr.2, hd.1, hd.2]

theorem abs_clampOxygen_toDouble_sub_le (p d B : ℚ) (h15 : 15 ≤ p) (h25 : p ≤ 25)
    (hd : |d| ≤ B) :
    |max 15 (min 25 (Binary64.toDouble (p + d))) - p| ≤ B + |p + d| / 2 ^ 53 := by
  have herr := Binary64.abs_toDouble_sub_le (p + d)
  have hE : 0 ≤ |p + d| / 2 ^ 53 := div_nonneg (abs_nonneg _) (by norm_num)
  rw [abs_le] at herr hd ⊢
  rcases min_cases 25 (Binary64.toDouble (p + d)) with ⟨h1, h2⟩ | ⟨h1, h2⟩ <;> rw [h1] <;>
    rcases max_cases (15 : ℚ) 25 with ⟨h3, h4⟩ | ⟨h3, h4⟩ <;>
    rcases max_cases 15 (Binary64.toDouble (p + d)) with ⟨h5, h6⟩ | ⟨h5, h6⟩ <;>
    first
    | (rw [h3]; constructor <;> linarith [herr.1, herr.2, hd.1, hd.2])
    | (rw [h5]; constructor <;> linarith [herr.1, herr.2, hd.1, hd.2])

theorem toDouble_literals :
    Binary64.toDouble (0.3 : ℚ) = 5404319552844595 / 18014398509481984 ∧
    Binary64.toDouble (0.2 : ℚ) = 3602879701896397 / 18014398509481984 ∧
    Binary64.toDouble (0.15 : ℚ) = 5404319552844595 / 36028797018963968 ∧
    Binary64.toDouble (0.1 : ℚ) = 3602879701896397 / 36028797018963968 := by
  refine ⟨?_, ?_, ?_, ?_⟩
  · rw [show (0.3 : ℚ) = 3 / 10 by norm_num]; exact Binary64.toDouble_three_tenths
  · rw [show (0.2 : ℚ) = 1 / 5 by norm_num]; exact Binary64.toDouble_two_tenths
  · rw [show (0.15 : ℚ) = 3 / 20 by norm_num]; exact Binary64.toDouble_fifteen_hundredths
  · rw [show (0.1 : ℚ) = 1 / 10 by norm_num]; exact Binary64.toDouble_one_tenth

theorem abs_deltaBinary64_le (env : Env) (hr : env.RandomInRange) :
    |methaneDeltaBinary64 env| ≤ Binary64.toDouble 0.15 ∧ |coDeltaBinary64 env| ≤ 2.5 ∧
    |h2DeltaBinary64 env| ≤ Binary64.toDouble 0.1 ∧
    |o2DeltaBinary64 env| ≤ Binary64.toDouble 0.15 := by
  obtain ⟨e03, e02, e015, e01⟩ := toDouble_literals
  have k03 : Binary64.toDouble (Binary64.toDouble (0.3 : ℚ) / 2) = Binary64.toDouble 0.15 := by
    rw [e03, e015, show (5404319552844595 / 18014398509481984 : ℚ) / 2
      = 5404319552844595 / 36028797018963968 by norm_num]
    exact Binary64.toDouble_half_three_tenths
  have k02 : Binary64.toDouble (Binary64.toDouble (0.2 : ℚ) / 2) = Binary64.toDouble 0.1 := by
    rw [e02, e01, show (3602879701896397 / 18014398509481984 : ℚ) / 2
      = 3602879701896397 / 36028797018963968 by norm_num]
    exact Binary64.toDouble_half_two_tenths
  have k5 : Binary64.toDouble ((5 : ℚ) / 2) = 2.5 := by
    rw [Binary64.toDouble_five_halves]; norm_num
  have p03 : (0 : ℚ) ≤ Binary64.toDouble 0.3 := Binary64.toDouble_nonneg (by norm_num)
  have p02 : (0 : ℚ) ≤ Binary64.toDouble 0.2 := Binary64.toDouble_nonneg (by norm_num)
  exact ⟨abs_toDouble_scaled_le _ _ _ p03 (hr 0).1 (hr 0).2 k03,
    abs_toDouble_scaled_le _ _ _ (by norm_num) (hr 1).1 (hr 1).2 k5,
    abs_toDouble_scaled_le _ _ _ p02 (hr 2).1 (hr 2).2 k02,
    abs_toDouble_scaled_le _ _ _ p03 (hr 3).1 (hr 3).2 k03⟩

theorem methaneDeltaBinary64_lowEnv :
    methaneDeltaBinary64 lowEnv = -(5404319552844595 / 36028797018963968) := by
  unfold methaneDeltaBinary64
  rw [toDouble_literals.1]
  have h0 : lowEnv.random 0 - 0.5 = -(1 / 2) := by norm_num [lowEnv]
  rw [h0, Binary64.toDouble_neg, Binary64.toDouble_one_half,
    show -(1 / 2 : ℚ) * (5404319552844595 / 18014398509481984)
      = -(5404319552844595 / 36028797018963968) by norm_num,
    Binary64.toDouble_neg, Binary64.toDouble_half_three_tenths]

/-- C15, as stated, fails on the program's arithmetic: with the previous
methane value `1.0`, inside the domain, and the draw `0`, in `[0, 1)`, the
delta is the double `-0.15`, the sum `1.0 + delta` rounds to the double
`0.85`, and the new value differs from the previous one by
`0.15000000000000002`, more than `0.15`. -/
theorem methane_step_exceeds_bound :
    lowEnv.RandomInRange ∧ onThresholdState.gasLevels.methane.value = 1.0 ∧
    methaneDeltaBinary64 lowEnv = -(5404319552844595 / 36028797018963968) ∧
    (sampleBinary64 onThresholdState.gasLevels lowEnv).methane.value =
      7656119366529843 / 9007199254740992 ∧
    0.15 < |(sampleBinary64 onThresholdState.gasLevels lowEnv).methane.value
      - onThresholdState.gasLevels.methane.value| := by
  have hd := methaneDeltaBinary64_lowEnv
  have hp : onThresholdState.gasLevels.methane.value = 1.0 := rfl
  have hv : (sampleBinary64 onThresholdState.gasLevels lowEnv).methane.value =
      7656119366529843 / 9007199254740992 := by
    show max 0 (Binary64.toDouble (onThresholdState.gasLevels.methane.value
      + methaneDeltaBinary64 lowEnv)) = _
    rw [hd, hp, show (1.0 : ℚ) + -(5404319552844595 / 36028797018963968)
      = 30624477466119373 / 36028797018963968 by norm_num, Binary64.toDouble_methane_step]
    norm_num
  refine ⟨lowEnv_randomInRange, hp, hd, hv, ?_⟩
  rw [hv, hp]
  norm_num [abs_lt, lt_abs]

/-- C15, amended: with every draw in `[0, 1)` and the arithmetic of doubles,
the deltas of a tick are at most the double `0.15` (methane, oxygen), `2.5`
(carbonMonoxide) and the double `0.1` (hydrogen) in absolute value; and when
the previous value was inside the channel's domain, the new value differs
from it by at most that bound plus the rounding error of the one addition,
itself at most `2 ^ (-53)` times the size of the exact sum. -/
theorem tick_step_bounded_binary64 (g : GasLevels) (env : Env) (hr : env.RandomInRange) :
    |methaneDeltaBinary64 env| ≤ Binary64.toDouble 0.15 ∧ |coDeltaBinary64 env| ≤ 2.5 ∧
    |h2DeltaBinary64 env| ≤ Binary64.toDouble 0.1 ∧
    |o2DeltaBinary64 env| ≤ Binary64.toDouble 0.15 ∧
    (0 ≤ g.methane.value →
      |(sampleBinary64 g env).methane.value - g.methane.value| ≤
        Binary64.toDouble 0.15 + |g.methane.value + methaneDeltaBinary64 env| / 2 ^ 53) ∧
    (0 ≤ g.carbonMonoxide.value →
      |(sampleBinary64 g env).carbonMonoxide.value - g.carbonMonoxide.value| ≤
        2.5 + |g.carbonMonoxide.value + coDeltaBinary64 env| / 2 ^ 53) ∧
    (0 ≤ g.hydrogen.value →
      |(sampleBinary64 g env).hydrogen.value - g.hydrogen.value| ≤
        Binary64.toDouble 0.1 + |g.hydrogen.value + h2DeltaBinary64 env| / 2 ^ 53) ∧
    (15 ≤ g.oxygenLow.value → g.oxygenLow.value ≤ 25 →
      |(sampleBinary64 g env).oxygenLow.value - g.oxygenLow.value| ≤
        Binary64.toDouble 0.15 + |g.oxygenLow.value + o2DeltaBinary64 env| / 2 ^ 53 ∧
      |(sampleBinary64 g env).oxygenHigh.value - g.oxygenLow.value| ≤
        Binary64.toDouble 0.15 + |g.oxygenLow.value + o2DeltaBinary64 env| / 2 ^ 53) := by
  obtain ⟨hm, hc, hh, ho⟩ := abs_deltaBinary64_le env hr
  exact ⟨hm, hc, hh, ho, fun hp => abs_clampLower_toDouble_sub_le _ _ _ hp hm,
    fun hp => abs_clampLower_toDouble_sub_le _ _ _ hp hc,
    fun hp => abs_clampLower_toDouble_sub_le _ _ _ hp hh,
    fun h15 h25 => ⟨abs_clampOxygen_toDouble_sub_le _ _ _ h15 h25 ho,
      abs_clampOxygen_toDouble_sub_le _ _ _ h15 h25 ho⟩⟩

theorem tick_step_bounded_binary64_witness :
    lowEnv.RandomInRange ∧
    |methaneDeltaBinary64 lowEnv| = Binary64.toDouble 0.15 ∧
    |(sampleBinary64 onThresholdState.gasLevels lowEnv).methane.value
      - onThresholdState.gasLevels.methane.value| ≤
      Binary64.toDouble 0.15
        + |onThresholdState.gasLevels.methane.value + methaneDeltaBinary64 lowEnv| / 2 ^ 53 := by
  have h := tick_step_bounded_binary64 onThresholdState.gasLevels lowEnv lowEnv_randomInRange
  refine ⟨lowEnv_randomInRange, ?_, h.2.2.2.2.1 (by norm_num [onThresholdState, initialState,
    initialGasLevels])⟩
  rw [methaneDeltaBinary64_lowEnv, toDouble_literals.2.2.1]
  norm_num [abs_of_neg]

end GasDetection

namespace DailyChecklist

/-! ## Progress of the checklist -/

theorem calculateProgress_eq (items : List ChecklistItem) (h : items ≠ []) :
    calculateProgress items =
      jsRound (Binary64.toDouble (Binary64.toDouble
        (((items.filter (fun item => item.completed)).length : ℚ) / (items.length : ℚ)) * 100)) := by
  have h0 : items.length ≠ 0 := (List.length_pos.mpr h).ne'
  simp only [calculateProgress, h0, if_false]

theorem percent_bounds (c n : ℕ) (hn : 0 < n) (hc : c ≤ n) :
    0 ≤ Binary64.toDouble (Binary64.toDouble ((c : ℚ) / (n : ℚ)) * 100) ∧
    Binary64.toDouble (Binary64.toDouble ((c : ℚ) / (n : ℚ)) * 100) ≤ 100 := by
  have hn' : (0 : ℚ) < n := by exact_mod_cast hn
  have hc' : (c : ℚ) ≤ n := by exact_mod_cast hc
  have h0 : (0 : ℚ) ≤ (c : ℚ) / n := div_nonneg (Nat.cast_nonneg c) hn'.le
  have h1 : (c : ℚ) / n ≤ 1 := (div_le_one hn').mpr hc'
  have a0 : 0 ≤ Binary64.toDouble ((c : ℚ) / n) := Binary64.toDouble_nonneg h0
  have a1 : Binary64.toDouble ((c : ℚ) / n) ≤ 1 := by
    have := Binary64.toDouble_mono h1
    rwa [Binary64.toDouble_one] at this
  constructor
  · exact Binary64.toDouble_nonneg (by linarith)
  · have := Binary64.toDouble_mono (x := Binary64.toDouble ((c : ℚ) / n) * 100) (y := 100)
      (by linarith)
    rwa [Binary64.toDouble_hundred] at this

theorem percent_lt_of_incomplete (c n : ℕ) (hc : c < n) (h200 : n < 200) :
    Binary64.toDouble (Binary64.toDouble ((c : ℚ) / (n : ℚ)) * 100) ≤ 203775 / 2048 := by
  have hn' : (0 : ℚ) < n := by exact_mod_cast (by omega : 0 < n)
  have h1 : (c : ℚ) / n ≤ 8151 / 8192 := by
    rw [div_le_iff₀ hn']
    have : 8192 * c ≤ 8151 * n := by omega
    have h2 : ((8192 * c : ℕ) : ℚ) ≤ ((8151 * n : ℕ) : ℚ) := by exact_mod_cast this
    push_cast at h2
    linarith
  have a1 : Binary64.toDouble ((c : ℚ) / n) ≤ 8151 / 8192 := by
    have := Binary64.toDouble_mono h1
    rwa [Binary64.toDouble_upper_ratio] at this
  have := Binary64.toDouble_mono (x := Binary64.toDouble ((c : ℚ) / n) * 100)
    (y := 203775 / 2048) (by linarith)
  rwa [Binary64.toDouble_upper_percent] at this

theorem almostDone_counts :
    almostDone.length = 200 ∧ (almostDone.filter (fun item => item.completed)).length = 199 := by
  unfold almostDone
  constructor
  · rw [List.length_append, List.length_replicate]
    rfl
  · rw [List.filter_append, List.filter_replicate_of_pos rfl, List.length_append,
      List.length_replicate]
    rfl

theorem partlyDone_counts :
    partlyDone.length = 40 ∧ (partlyDone.filter (fun item => item.completed)).length = 23 := by
  unfold partlyDone
  constructor
  · rw [List.length_append, List.length_replicate, List.length_replicate]
  · rw [List.filter_append, List.filter_replicate_of_pos rfl,
      List.filter_replicate_of_neg (by simp), List.length_append, List.length_replicate]
    rfl

/-- C29, as stated, fails: for the checklist of 40 items with 23 completed
the program returns 57, because the double `(23 / 40) * 100` is
`57.49999999999999`, while the rounding of `100 × 23 / 40 = 57.5` is 58. -/
theorem calculateProgress_not_exact_rounding :
    partlyDone.length = 40 ∧
    (partlyDone.filter (fun item => item.completed)).length = 23 ∧
    calculateProgress partlyDone = 57 ∧
    jsRound (100 * (23 : ℚ) / 40) = 58 := by
  refine ⟨partlyDone_counts.1, partlyDone_counts.2, ?_, ?_⟩
  · rw [calculateProgress_eq _ (by decide), partlyDone_counts.1, partlyDone_counts.2]
    have h1 : Binary64.toDouble (((23 : ℕ) : ℚ) / ((40 : ℕ) : ℚ))
        = 2589569785738035 / 4503599627370496 := by
      rw [show (((23 : ℕ) : ℚ) / ((40 : ℕ) : ℚ)) = 23 / 40 by norm_num]
      exact Binary64.toDouble_ratio_23_40
    rw [h1, show (2589569785738035 / 4503599627370496 : ℚ) * 100
      = 64739244643450875 / 1125899906842624 by norm_num, Binary64.toDouble_percent_23_40]
    unfold jsRound
    rw [Int.floor_eq_iff]
    constructor <;> norm_num
  · unfold jsRound
    rw [Int.floor_eq_iff]
    constructor <;> norm_num

/-- C29, amended: `calculateProgress` returns 0 for an empty checklist and
otherwise `Math.round` of the double `(completed / total) * 100`, which is
not always the rounding of the exact `100 × completed / total`; the result
lies in `0 .. 100`, is 100 when every item of a non-empty checklist is
completed and 0 when none is; with fewer than 200 items it is 100 only if
every item is completed, while the checklist of 200 items with 199 completed
gives 100. -/
theorem calculateProgress_spec (items : List ChecklistItem) :
    (items = [] → calculateProgress items = 0) ∧
    (items ≠ [] → calculateProgress items =
      jsRound (Binary64.toDouble (Binary64.toDouble
        (((items.filter (fun item => item.completed)).length : ℚ) / (items.length : ℚ))
          * 100))) ∧
    (0 ≤ calculateProgress items ∧ calculateProgress items ≤ 100) ∧
    (items ≠ [] → (∀ item ∈ items, item.completed = true) → calculateProgress items = 100) ∧
    ((∀ item ∈ items, item.completed = false) → calculateProgress items = 0) ∧
    (items.length < 200 → calculateProgress items = 100 →
      ∀ item ∈ items, item.completed = true) ∧
    (almostDone.length = 200 ∧
      (almostDone.filter (fun item => item.completed)).length = 199 ∧
      calculateProgress almostDone = 100) := by
  have hle : (items.filter (fun item => item.completed)).length ≤ items.length :=
    List.length_filter_le _ _
  have hne : items ≠ [] → 0 < items.length := fun h => List.length_pos.mpr h
  refine ⟨fun h => by rw [h]; rfl, calculateProgress_eq items, ?_, fun h hall => ?_,
    fun hnone => ?_, fun h200 h100 => ?_, almostDone_counts.1, almostDone_counts.2, ?_⟩
  · by_cases h : items = []
    · rw [h]
      exact ⟨by decide, by decide⟩
    · rw [calculateProgress_eq items h]
      obtain ⟨b0, b1⟩ := percent_bounds _ _ (hne h) hle
      unfold jsRound
      constructor
      · exact Int.floor_nonneg.mpr (by linarith)
      · have : Int.floor (Binary64.toDouble (Binary64.toDouble
            (((items.filter (fun item => item.completed)).length : ℚ) / (items.length : ℚ))
              * 100) + 1 / 2) < 101 := Int.floor_lt.mpr (by push_cast; linarith)
        omega
  · have hn' : ((items.length : ℕ) : ℚ) ≠ 0 := by exact_mod_cast (hne h).ne'
    rw [calculateProgress_eq items h,
      List.filter_length_eq_length.mpr (fun a ha => hall a ha), div_self hn',
      Binary64.toDouble_one, one_mul, Binary64.toDouble_hundred]
    unfold jsRound
    rw [Int.floor_eq_iff]
    constructor <;> norm_num
  · by_cases h : items = []
    · rw [h]
      rfl
    · have hf : items.filter (fun item => item.completed) = [] :=
        List.filter_eq_nil_iff.mpr (fun a ha => by simp [hnone a ha])
      rw [calculateProgress_eq items h, hf]
      simp only [List.length_nil, Nat.cast_zero, zero_div, Binary64.toDouble_zero, zero_mul]
      unfold jsRound
      rw [Int.floor_eq_iff]
      constructor <;> norm_num
  · have h : items ≠ [] := by
      intro he
      rw [he] at h100
      exact absurd h100 (by decide)
    rcases Nat.lt_or_ge (items.filter (fun item => item.completed)).length items.length
      with hlt | hge
    · exfalso
      have hb := percent_lt_of_incomplete _ _ hlt h200
      rw [calculateProgress_eq items h] at h100
      unfold jsRound at h100
      have : Int.floor (Binary64.toDouble (Binary64.toDouble
            (((items.filter (fun item => item.completed)).length : ℚ) / (items.length : ℚ))
              * 100) + 1 / 2) < 100 := Int.floor_lt.mpr (by push_cast; linarith)
      omega
    · exact fun item hi =>
        List.filter_length_eq_length.mp (le_antisymm hle hge) item hi
  · rw [calculateProgress_eq _ (by decide), almostDone_counts.1, almostDone_counts.2]
    have h1 : Binary64.toDouble (((199 : ℕ) : ℚ) / ((200 : ℕ) : ℚ))
        = 8962163258467287 / 9007199254740992 := by
      rw [show (((199 : ℕ) : ℚ) / ((200 : ℕ) : ℚ)) = 199 / 200 by norm_num]
      exact Binary64.toDouble_ratio_199_200
    rw [h1, show (8962163258467287 / 9007199254740992 : ℚ) * 100
      = 224054081461682175 / 2251799813685248 by norm_num, Binary64.toDouble_percent_199_200]
    unfold jsRound
    rw [Int.floor_eq_iff]
    constructor <;> norm_num

end DailyChecklist

namespace UserManagement

/-! ## Ids of added users -/

theorem handleSubmit_add_ids (users : List UserRecord) (formData : FormData) :
    (handleSubmit users none formData).map (fun user => user.id) =
      users.map (fun user => user.id) ++ [users.length + 1] := by
  simp [handleSubmit]

/-- C30: adding a user appends one with `id = users.length + 1`. The ids stay
pairwise distinct when the current ids are distinct and lie in
`1 .. users.length` (that is, are exactly `1 .. n`), but not in general:
from the 10 mock users, after `handleDeleteUser` removed the user with id 3,
adding a user gives the ids `1, 2, 4, .., 10, 10`, in which 10 occurs twice. -/
theorem handleSubmit_add_id_collision (users : List UserRecord) (formData : FormData) :
    ((handleSubmit users none formData).map (fun user => user.id) =
      users.map (fun user => user.id) ++ [users.length + 1]) ∧
    ((users.map (fun user => user.id)).Nodup →
      (∀ user ∈ users, 1 ≤ user.id ∧ user.id ≤ users.length) →
      ((handleSubmit users none formData).map (fun user => user.id)).Nodup) ∧
    (mockUsers.map (fun user => user.id) = [1, 2, 3, 4, 5, 6, 7, 8, 9, 10]) ∧
    ((handleSubmit (handleDeleteUser mockUsers 3 true) none formData).map (fun user => user.id)
      = [1, 2, 4, 5, 6, 7, 8, 9, 10, 10]) ∧
    ¬ ((handleSubmit (handleDeleteUser mockUsers 3 true) none formData).map
      (fun user => user.id)).Nodup := by
  have hcol : (handleSubmit (handleDeleteUser mockUsers 3 true) none formData).map
      (fun user => user.id) = [1, 2, 4, 5, 6, 7, 8, 9, 10, 10] := by
    rw [handleSubmit_add_ids]
    decide
  refine ⟨handleSubmit_add_ids users formData, fun hnd hrange => ?_, by decide, hcol, ?_⟩
  · rw [handleSubmit_add_ids, List.nodup_append]
    refine ⟨hnd, List.nodup_singleton _, ?_⟩
    intro a ha hb
    rw [List.mem_singleton] at hb
    obtain ⟨u, hu, rfl⟩ := List.mem_map.mp ha
    have := (hrange u hu).2
    omega
  · rw [hcol]
    decide

theorem handleSubmit_add_id_collision_witness :
    ((handleSubmit mockUsers none newUserForm).map (fun user => user.id)).Nodup ∧
    (handleSubmit mockUsers none newUserForm).map (fun user => user.id) =
      [1, 2, 3, 4, 5, 6, 7, 8, 9, 10, 11] :=
  ⟨(handleSubmit_add_id_collision mockUsers newUserForm).2.1 (by decide) (by decide),
    by decide⟩

end UserManagement
